import Mathlib

/-!
# OTG screen: mouse-capture state machine and event dispatch

A shallow embedding of `app/src/usb/screen_otg.c`.

* The SDL library is the platform.  Its state that the module reads or
  changes is the record `SDL`; every call the module makes into SDL or into a
  keyboard/mouse processor is recorded, in program order, as a `Call`.
* The module stores no capture flag of its own: the capture state is SDL's
  relative mouse mode (`sc_screen_otg_get_mouse_capture` returns
  `SDL_GetRelativeMouseMode()`).
* The conversion helpers of `input_events.h` are not part of the translated
  file; they are the parameter `InputEvents`.
-/

namespace ScreenOtg

/-! ## SDL constants and raw events -/

/-- The type `SDL_Keycode` is a signed 32-bit integer in SDL. -/
abbrev SDL_Keycode := Int

/-- Key code of the left Alt key, `SDL_SCANCODE_LALT | (1 << 30)`. -/
def SDLK_LALT : SDL_Keycode := 0x400000E2
/-- Key code of the left GUI key, `SDL_SCANCODE_LGUI | (1 << 30)`. -/
def SDLK_LGUI : SDL_Keycode := 0x400000E3
/-- Key code of the right GUI key, `SDL_SCANCODE_RGUI | (1 << 30)`. -/
def SDLK_RGUI : SDL_Keycode := 0x400000E7

/-- Event type tag of key presses. -/
def SDL_KEYDOWN : Nat := 0x300
/-- Event type tag of key releases. -/
def SDL_KEYUP : Nat := 0x301
/-- Event type tag of mouse button presses. -/
def SDL_MOUSEBUTTONDOWN : Nat := 0x401
/-- Event type tag of mouse button releases. -/
def SDL_MOUSEBUTTONUP : Nat := 0x402

/-- Window event id: the window has been exposed and should be redrawn. -/
def SDL_WINDOWEVENT_EXPOSED : Nat := 3
/-- Window event id: the window has lost keyboard focus. -/
def SDL_WINDOWEVENT_FOCUS_LOST : Nat := 13

/-- The part `keysym` of a keyboard event. -/
structure SDL_Keysym where
  scancode : Nat
  sym : SDL_Keycode
  mod : Nat
  deriving DecidableEq

/-- Payload of `SDL_KEYDOWN` and `SDL_KEYUP`; `is_repeat` is the field
`repeat` (non-zero for an auto-repeat). -/
structure SDL_KeyboardEvent where
  keysym : SDL_Keysym
  is_repeat : Nat
  deriving DecidableEq

/-- Payload of `SDL_MOUSEMOTION`; `state` is the button state recorded in
the event. -/
structure SDL_MouseMotionEvent where
  state : Nat
  x : Int
  y : Int
  xrel : Int
  yrel : Int
  deriving DecidableEq

/-- Payload of `SDL_MOUSEBUTTONDOWN` and `SDL_MOUSEBUTTONUP`; `state` is
`SDL_PRESSED` or `SDL_RELEASED`, it is not a button mask. -/
structure SDL_MouseButtonEvent where
  button : Nat
  state : Nat
  clicks : Nat
  x : Int
  y : Int
  deriving DecidableEq

/-- Payload of `SDL_MOUSEWHEEL`. -/
structure SDL_MouseWheelEvent where
  x : Int
  y : Int
  direction : Nat
  deriving DecidableEq

/-- The tagged union `SDL_Event`, one constructor for each `case` of the
`switch (event->type)` of `sc_screen_otg_handle_event`.  `SDL_WINDOWEVENT`
carries `event->window.event`.  `other` stands for every type value that
reaches no case with a body: `sdlCustomEvent` (whose case only breaks) and
the types the switch does not list. -/
inductive SDL_Event where
  | SDL_WINDOWEVENT (event : Nat)
  | SDL_KEYDOWN (key : SDL_KeyboardEvent)
  | SDL_KEYUP (key : SDL_KeyboardEvent)
  | SDL_MOUSEMOTION (motion : SDL_MouseMotionEvent)
  | SDL_MOUSEBUTTONDOWN (button : SDL_MouseButtonEvent)
  | SDL_MOUSEBUTTONUP (button : SDL_MouseButtonEvent)
  | SDL_MOUSEWHEEL (wheel : SDL_MouseWheelEvent)
  | other (type : Nat)
  deriving DecidableEq

/-! ## Normalized events handed to the processors -/

/-- Press or release. -/
inductive sc_action where
  | SC_ACTION_DOWN
  | SC_ACTION_UP
  deriving DecidableEq

/-- Normalized key event. -/
structure sc_key_event where
  action : sc_action
  keycode : Nat
  scancode : Nat
  is_repeat : Bool
  mods_state : Nat
  deriving DecidableEq

/-- Normalized motion event; `.position` is not set for HID events. -/
structure sc_mouse_motion_event where
  xrel : Int
  yrel : Int
  buttons_state : Nat
  deriving DecidableEq

/-- Normalized click event; `.position` is not set for HID events. -/
structure sc_mouse_click_event where
  action : sc_action
  button : Nat
  buttons_state : Nat
  deriving DecidableEq

/-- Normalized scroll event; `.position` is not set for HID events. -/
structure sc_mouse_scroll_event where
  hscroll : Int
  vscroll : Int
  buttons_state : Nat
  deriving DecidableEq

/-- The conversion helpers of `input_events.h`, which the translated file
calls but does not define. -/
structure InputEvents where
  sc_action_from_sdl_keyboard_type : Nat → sc_action
  sc_keycode_from_sdl : SDL_Keycode → Nat
  sc_scancode_from_sdl : Nat → Nat
  sc_mods_state_from_sdl : Nat → Nat
  sc_action_from_sdl_mousebutton_type : Nat → sc_action
  sc_mouse_button_from_sdl : Nat → Nat
  sc_mouse_buttons_state_from_sdl : Nat → Bool → Nat

/-- What the translation unit is compiled with: whether `__APPLE__` is
defined, and the conversion helpers. -/
structure Build where
  apple : Bool
  ie : InputEvents

/-- Modelled from the spec: the constant `SC_SEQUENCE_INVALID` is declared in
a header that is not part of the translated file; the spec calls it the
sequence id "invalid", an opaque token this module does not interpret. -/
def SC_SEQUENCE_INVALID : Nat := 0

/-! ## Platform state and recorded calls -/

/-- The state of SDL that the module reads or changes.
`relative_mode` is what `SDL_GetRelativeMouseMode()` returns;
`relative_mode_ok` tells whether `SDL_SetRelativeMouseMode` takes effect;
`mouse_state` is what `SDL_GetMouseState(NULL, NULL)` returns;
the other fields are the global pointer position and the window rectangle. -/
structure SDL where
  relative_mode : Bool
  relative_mode_ok : Bool
  mouse_state : Nat
  global_mouse_x : Int
  global_mouse_y : Int
  window_x : Int
  window_y : Int
  window_w : Int
  window_h : Int
  deriving DecidableEq

/-- A call made by the module, into a processor, into SDL, or to the log. -/
inductive Call where
  | process_key (evt : sc_key_event) (ack_to_wait : Nat)
  | process_mouse_motion (evt : sc_mouse_motion_event)
  | process_mouse_click (evt : sc_mouse_click_event)
  | process_mouse_scroll (evt : sc_mouse_scroll_event)
  | SDL_SetRelativeMouseMode (enabled : Bool)
  | SDL_WarpMouseInWindow (x : Int) (y : Int)
  | SDL_RenderClear
  | SDL_RenderCopy
  | SDL_RenderPresent
  | LOGE_relative_mouse_mode (capture : Bool)
  deriving DecidableEq

/-- The library call `SDL_SetRelativeMouseMode`: when it takes effect the
relative mode becomes `enabled` and 0 is returned, when it fails the mode is
left as it was and -1 is returned. -/
def SDL_SetRelativeMouseMode (sdl : SDL) (enabled : Bool) : SDL × Int :=
  if sdl.relative_mode_ok then ({ sdl with relative_mode := enabled }, 0)
  else (sdl, -1)

/-- The library call `SDL_GetRelativeMouseMode`. -/
def SDL_GetRelativeMouseMode (sdl : SDL) : Bool := sdl.relative_mode

/-- The library call `SDL_GetMouseState(NULL, NULL)`. -/
def SDL_GetMouseState (sdl : SDL) : Nat := sdl.mouse_state

/-! ## The module -/

/-- The struct `sc_screen_otg`.  `keyboard` and `mouse` tell whether the
pointer is non-NULL, `texture` whether an icon texture exists. -/
structure sc_screen_otg where
  keyboard : Bool
  mouse : Bool
  texture : Bool
  mouse_capture_key_pressed : SDL_Keycode
  deriving DecidableEq

/-- What a function of the module leaves behind: the module state, the
platform state, and the calls it made, in order. -/
structure Outcome where
  screen : sc_screen_otg
  sdl : SDL
  calls : List Call
  deriving DecidableEq

/-- The function `sc_screen_otg_set_mouse_capture`.  With `__APPLE__`, and
when capture is requested, the pointer is first warped to the centre of the
window if it lies outside the window rectangle (C `int` division truncates
toward zero; the sums `x + w` and `y + h` are taken in the integers, window
coordinates being far from the `int` bounds).  Then
`SDL_SetRelativeMouseMode(capture)` is called and a non-zero return value is
logged.  Only the platform state and the calls are returned: the module state
is not written. -/
def sc_screen_otg_set_mouse_capture (b : Build) (sdl : SDL) (capture : Bool) :
    SDL × List Call :=
  let warp : List Call :=
    if b.apple && capture then
      let mouse_x := sdl.global_mouse_x
      let mouse_y := sdl.global_mouse_y
      let x := sdl.window_x
      let y := sdl.window_y
      let w := sdl.window_w
      let h := sdl.window_h
      let outside_window : Bool :=
        decide (mouse_x < x) || decide (mouse_x ≥ x + w)
          || decide (mouse_y < y) || decide (mouse_y ≥ y + h)
      if outside_window then [Call.SDL_WarpMouseInWindow (Int.tdiv w 2) (Int.tdiv h 2)]
      else []
    else []
  let r := SDL_SetRelativeMouseMode sdl capture
  let log : List Call :=
    if r.2 ≠ 0 then [Call.LOGE_relative_mouse_mode capture] else []
  (r.1, warp ++ [Call.SDL_SetRelativeMouseMode capture] ++ log)

/-- The function `sc_screen_otg_get_mouse_capture`: the capture state is
read from SDL. -/
def sc_screen_otg_get_mouse_capture (sdl : SDL) : Bool :=
  SDL_GetRelativeMouseMode sdl

/-- The function `sc_screen_otg_toggle_mouse_capture`. -/
def sc_screen_otg_toggle_mouse_capture (b : Build) (sdl : SDL) : SDL × List Call :=
  let new_value := !sc_screen_otg_get_mouse_capture sdl
  sc_screen_otg_set_mouse_capture b sdl new_value

/-- The function `sc_screen_otg_render`. -/
def sc_screen_otg_render (screen : sc_screen_otg) : List Call :=
  [Call.SDL_RenderClear]
    ++ (if screen.texture then [Call.SDL_RenderCopy] else [])
    ++ [Call.SDL_RenderPresent]

/-- The function `sc_screen_otg_is_mouse_capture_key`. -/
def sc_screen_otg_is_mouse_capture_key (key : SDL_Keycode) : Bool :=
  decide (key = SDLK_LALT) || decide (key = SDLK_LGUI) || decide (key = SDLK_RGUI)

/-- The function `sc_screen_otg_process_key`; `type` is `event->type`.  Its
caller has checked `screen->keyboard`, which the function asserts. -/
def sc_screen_otg_process_key (b : Build) (type : Nat) (event : SDL_KeyboardEvent) :
    List Call :=
  let evt : sc_key_event :=
    { action := b.ie.sc_action_from_sdl_keyboard_type type
      keycode := b.ie.sc_keycode_from_sdl event.keysym.sym
      scancode := b.ie.sc_scancode_from_sdl event.keysym.scancode
      is_repeat := decide (event.is_repeat ≠ 0)
      mods_state := b.ie.sc_mods_state_from_sdl event.keysym.mod }
  [Call.process_key evt SC_SEQUENCE_INVALID]

/-- The function `sc_screen_otg_process_mouse_motion`.  Its caller has
checked `screen->mouse`, which the function asserts. -/
def sc_screen_otg_process_mouse_motion (b : Build) (event : SDL_MouseMotionEvent) :
    List Call :=
  let evt : sc_mouse_motion_event :=
    { xrel := event.xrel
      yrel := event.yrel
      buttons_state := b.ie.sc_mouse_buttons_state_from_sdl event.state true }
  [Call.process_mouse_motion evt]

/-- The function `sc_screen_otg_process_mouse_button`; `type` is
`event->type`. -/
def sc_screen_otg_process_mouse_button (b : Build) (sdl : SDL) (type : Nat)
    (event : SDL_MouseButtonEvent) : List Call :=
  let sdl_buttons_state := SDL_GetMouseState sdl
  let evt : sc_mouse_click_event :=
    { action := b.ie.sc_action_from_sdl_mousebutton_type type
      button := b.ie.sc_mouse_button_from_sdl event.button
      buttons_state := b.ie.sc_mouse_buttons_state_from_sdl sdl_buttons_state true }
  [Call.process_mouse_click evt]

/-- The function `sc_screen_otg_process_mouse_wheel`. -/
def sc_screen_otg_process_mouse_wheel (b : Build) (sdl : SDL)
    (event : SDL_MouseWheelEvent) : List Call :=
  let sdl_buttons_state := SDL_GetMouseState sdl
  let evt : sc_mouse_scroll_event :=
    { hscroll := event.x
      vscroll := event.y
      buttons_state := b.ie.sc_mouse_buttons_state_from_sdl sdl_buttons_state true }
  [Call.process_mouse_scroll evt]

/-- The function `sc_screen_otg_handle_event`, case by case.  A `return`
inside a case ends the function with the outcome reached there; the code after
an inner `if` that did not return (the forwarding to the keyboard processor)
is repeated in each branch that falls through to it. -/
def sc_screen_otg_handle_event (b : Build) (screen : sc_screen_otg) (sdl : SDL)
    (event : SDL_Event) : Outcome :=
  match event with
  | .SDL_WINDOWEVENT we =>
    if we = SDL_WINDOWEVENT_EXPOSED then
      ⟨screen, sdl, sc_screen_otg_render screen⟩
    else if we = SDL_WINDOWEVENT_FOCUS_LOST then
      if screen.mouse then
        let r := sc_screen_otg_set_mouse_capture b sdl false
        ⟨screen, r.1, r.2⟩
      else ⟨screen, sdl, []⟩
    else ⟨screen, sdl, []⟩
  | .SDL_KEYDOWN ev =>
    if screen.mouse then
      let key := ev.keysym.sym
      if sc_screen_otg_is_mouse_capture_key key then
        if screen.mouse_capture_key_pressed = 0 then
          ⟨{ screen with mouse_capture_key_pressed := key }, sdl, []⟩
        else
          -- Another mouse capture key has been pressed, cancel mouse (un)capture
          ⟨{ screen with mouse_capture_key_pressed := 0 }, sdl, []⟩
      else if screen.keyboard then
        ⟨screen, sdl, sc_screen_otg_process_key b SDL_KEYDOWN ev⟩
      else ⟨screen, sdl, []⟩
    else if screen.keyboard then
      ⟨screen, sdl, sc_screen_otg_process_key b SDL_KEYDOWN ev⟩
    else ⟨screen, sdl, []⟩
  | .SDL_KEYUP ev =>
    if screen.mouse then
      let key := ev.keysym.sym
      let cap := screen.mouse_capture_key_pressed
      let screen1 := { screen with mouse_capture_key_pressed := 0 }
      if sc_screen_otg_is_mouse_capture_key key then
        if key = cap then
          let r := sc_screen_otg_toggle_mouse_capture b sdl
          ⟨screen1, r.1, r.2⟩
        else ⟨screen1, sdl, []⟩
      else if screen1.keyboard then
        ⟨screen1, sdl, sc_screen_otg_process_key b SDL_KEYUP ev⟩
      else ⟨screen1, sdl, []⟩
    else if screen.keyboard then
      ⟨screen, sdl, sc_screen_otg_process_key b SDL_KEYUP ev⟩
    else ⟨screen, sdl, []⟩
  | .SDL_MOUSEMOTION ev =>
    if screen.mouse && sc_screen_otg_get_mouse_capture sdl then
      ⟨screen, sdl, sc_screen_otg_process_mouse_motion b ev⟩
    else ⟨screen, sdl, []⟩
  | .SDL_MOUSEBUTTONDOWN ev =>
    if screen.mouse && sc_screen_otg_get_mouse_capture sdl then
      ⟨screen, sdl, sc_screen_otg_process_mouse_button b sdl SDL_MOUSEBUTTONDOWN ev⟩
    else ⟨screen, sdl, []⟩
  | .SDL_MOUSEBUTTONUP ev =>
    if screen.mouse then
      if sc_screen_otg_get_mouse_capture sdl then
        ⟨screen, sdl, sc_screen_otg_process_mouse_button b sdl SDL_MOUSEBUTTONUP ev⟩
      else
        let r := sc_screen_otg_set_mouse_capture b sdl true
        ⟨screen, r.1, r.2⟩
    else ⟨screen, sdl, []⟩
  | .SDL_MOUSEWHEEL ev =>
    if screen.mouse && sc_screen_otg_get_mouse_capture sdl then
      ⟨screen, sdl, sc_screen_otg_process_mouse_wheel b sdl ev⟩
    else ⟨screen, sdl, []⟩
  | .other _ => ⟨screen, sdl, []⟩

/-! ## Event sequences -/

/-- Feeds the events to `sc_screen_otg_handle_event` one after the other, in
order, and collects the calls. -/
def run (b : Build) (screen : sc_screen_otg) (sdl : SDL) : List SDL_Event → Outcome
  | [] => ⟨screen, sdl, []⟩
  | e :: es =>
    let o := sc_screen_otg_handle_event b screen sdl e
    let o2 := run b o.screen o.sdl es
    ⟨o2.screen, o2.sdl, o.calls ++ o2.calls⟩

/-! ## Observers on calls and on event sequences -/

/-- The call goes to the keyboard processor. -/
def Call.isKeyboard : Call → Bool
  | .process_key _ _ => true
  | _ => false

/-- The call goes to the mouse processor. -/
def Call.isMouse : Call → Bool
  | .process_mouse_motion _ => true
  | .process_mouse_click _ => true
  | .process_mouse_scroll _ => true
  | _ => false

/-- The call switches the platform's pointer-grab (capture) mode. -/
def Call.isSetCapture : Call → Bool
  | .SDL_SetRelativeMouseMode _ => true
  | _ => false

/-- The event is a key-down or key-up of LeftAlt, LeftGUI or RightGUI. -/
def isToggleKeyEvent : SDL_Event → Bool
  | .SDL_KEYDOWN ev => sc_screen_otg_is_mouse_capture_key ev.keysym.sym
  | .SDL_KEYUP ev => sc_screen_otg_is_mouse_capture_key ev.keysym.sym
  | _ => false

/-- The event is a key-down. -/
def isKeyDown : SDL_Event → Bool
  | .SDL_KEYDOWN _ => true
  | _ => false

/-- The capture state seen by the module before the event of index `i` of
the sequence `es` is handled. -/
def captureBefore (b : Build) (screen : sc_screen_otg) (sdl : SDL)
    (es : List SDL_Event) (i : Nat) : Bool :=
  sc_screen_otg_get_mouse_capture (run b screen sdl (es.take i)).sdl

/-- The capture state is inverted at the event of index `i`. -/
def invertedAt (b : Build) (screen : sc_screen_otg) (sdl : SDL)
    (es : List SDL_Event) (i : Nat) : Prop :=
  captureBefore b screen sdl es (i + 1) = !captureBefore b screen sdl es i

/-- An instance of the conversion helpers on which the model can be
evaluated: actions follow the event type, key codes, scan codes and modifiers
are passed through, button `n` of 1..5 becomes bit `n - 1` and any other
button 0, and a button state keeps its five low bits (its lowest bit alone
when not all clicks are forwarded). -/
def sampleInputEvents : InputEvents where
  sc_action_from_sdl_keyboard_type := fun t =>
    if t = SDL_KEYDOWN then sc_action.SC_ACTION_DOWN else sc_action.SC_ACTION_UP
  sc_keycode_from_sdl := fun k => k.toNat
  sc_scancode_from_sdl := fun c => c
  sc_mods_state_from_sdl := fun m => m
  sc_action_from_sdl_mousebutton_type := fun t =>
    if t = SDL_MOUSEBUTTONDOWN then sc_action.SC_ACTION_DOWN else sc_action.SC_ACTION_UP
  sc_mouse_button_from_sdl := fun n => if 1 ≤ n ∧ n ≤ 5 then 2 ^ (n - 1) else 0
  sc_mouse_buttons_state_from_sdl := fun st all => if all then st % 32 else st % 2

/-- A build without the `__APPLE__` workaround, on the sample helpers. -/
def sampleBuild : Build := ⟨false, sampleInputEvents⟩

/-- A platform state with the pointer released, no button held and a 256x256
window at the origin; `ok` tells whether the grab call takes effect. -/
def sampleSDL (captured ok : Bool) : SDL :=
  ⟨captured, ok, 0, 10, 10, 0, 0, 256, 256⟩

/-- A module state with no chord pending. -/
def sampleScreen (keyboard mouse : Bool) : sc_screen_otg :=
  ⟨keyboard, mouse, true, 0⟩

/-- A key event of the given key code, not a repeat. -/
def keyEvent (sym : SDL_Keycode) : SDL_KeyboardEvent := ⟨⟨0, sym, 0⟩, 0⟩

/-- Number of consecutive key-down events at the end of the sequence. -/
def trailingDowns (es : List SDL_Event) : Nat :=
  (es.reverse.takeWhile isKeyDown).length

/-- The condition of the spec for a toggle at the event of index `i`, in the
spec's words: the event is the key-up of a toggle key, an earlier event is a
key-down of the same key, and no event between the two is a key-down of
another toggle key. -/
def chordCompletedAt (es : List SDL_Event) (i : Nat) : Prop :=
  ∃ u : SDL_KeyboardEvent, es[i]? = some (.SDL_KEYUP u)
    ∧ sc_screen_otg_is_mouse_capture_key u.keysym.sym = true
    ∧ ∃ (j : Nat) (d : SDL_KeyboardEvent), j < i ∧ es[j]? = some (.SDL_KEYDOWN d)
      ∧ d.keysym.sym = u.keysym.sym
      ∧ ∀ (m : Nat) (d2 : SDL_KeyboardEvent), j < m → m < i →
          es[m]? = some (.SDL_KEYDOWN d2) →
          ¬ (sc_screen_otg_is_mouse_capture_key d2.keysym.sym = true
              ∧ d2.keysym.sym ≠ u.keysym.sym)

/-- The event of index `i` is a key-up, the event just before it is a
key-down of the same key, and that key-down ends a run of consecutive
key-downs of odd length. -/
def armedReleaseAt (es : List SDL_Event) (i : Nat) : Prop :=
  ∃ u d : SDL_KeyboardEvent, es[i]? = some (.SDL_KEYUP u)
    ∧ (es.take i).getLast? = some (.SDL_KEYDOWN d)
    ∧ d.keysym.sym = u.keysym.sym
    ∧ trailingDowns (es.take i) % 2 = 1

/-- No key-down of the sequence arrives for the key that is the pending chord
key at the moment it is handled. -/
def noRepeatOfPending (b : Build) (screen : sc_screen_otg) (sdl : SDL) :
    List SDL_Event → Bool
  | [] => true
  | e :: es =>
    (match e with
      | .SDL_KEYDOWN ev => decide (ev.keysym.sym ≠ screen.mouse_capture_key_pressed)
      | _ => true)
    && noRepeatOfPending b (sc_screen_otg_handle_event b screen sdl e).screen
        (sc_screen_otg_handle_event b screen sdl e).sdl es

/-! ## Initialization -/

/-- Modelled from the spec: the constant `SC_WINDOW_POSITION_UNDEFINED` is
declared in `options.h`, which is not part of the translated file; it is the
value of a window coordinate that the configuration leaves "unspecified". -/
def SC_WINDOW_POSITION_UNDEFINED : Int := -0x8000

/-- The SDL value asking for a placement chosen by the platform. -/
def SDL_WINDOWPOS_UNDEFINED : Int := 0x1FFF0000

/-- Window flag: high-DPI drawable allowed. -/
def SDL_WINDOW_ALLOW_HIGHDPI : Nat := 0x2000
/-- Window flag: the window stays above the others. -/
def SDL_WINDOW_ALWAYS_ON_TOP : Nat := 0x8000
/-- Window flag: no window decoration. -/
def SDL_WINDOW_BORDERLESS : Nat := 0x10

/-- The struct `sc_screen_otg_params`; `keyboard` and `mouse` tell whether
the pointer is non-NULL. -/
structure sc_screen_otg_params where
  keyboard : Bool
  mouse : Bool
  window_title : String
  always_on_top : Bool
  window_x : Int
  window_y : Int
  window_width : Nat
  window_height : Nat
  window_borderless : Bool
  deriving DecidableEq

/-- What the platform answers to the calls of `sc_screen_otg_init`: whether
`_WIN32` is defined (the keyboard hook is then installed), whether the window,
the renderer and the icon texture can be created, the size of the icon when it
can be loaded, and whether the logical size can be set. -/
structure InitPlatform where
  win32 : Bool
  create_window_ok : Bool
  create_renderer_ok : Bool
  icon : Option (Int × Int)
  set_logical_size_ok : Bool
  create_texture_ok : Bool
  deriving DecidableEq

/-- A call made by `sc_screen_otg_init`.  `ok` records whether a creating
call returned a non-NULL result; `SDL_DestroyRenderer` records whether its
argument is non-NULL; `capture` wraps a call made through
`sc_screen_otg_set_mouse_capture`. -/
inductive InitCall where
  | SetKeyboardHook
  | SDL_CreateWindow (title : String) (x : Int) (y : Int) (width : Int) (height : Int)
      (flags : Nat) (ok : Bool)
  | LOGE_create_window
  | SDL_CreateRenderer (ok : Bool)
  | LOGE_create_renderer
  | scrcpy_icon_load (ok : Bool)
  | SDL_SetWindowIcon
  | SDL_RenderSetLogicalSize (w : Int) (h : Int)
  | LOGW_logical_size
  | SDL_CreateTextureFromSurface (ok : Bool)
  | scrcpy_icon_destroy
  | LOGW_icon
  | SDL_DestroyWindow
  | SDL_DestroyRenderer (renderer : Bool)
  | capture (c : Call)
  deriving DecidableEq

/-- What `sc_screen_otg_init` leaves behind: its return value, the module
state, the platform state and the calls it made, in order. -/
structure InitOutcome where
  ok : Bool
  screen : sc_screen_otg
  sdl : SDL
  calls : List InitCall
  deriving DecidableEq

/-- The function `sc_screen_otg_init`.  `screen` is the content of the struct
before the call (the texture field is written only once the icon has been
looked at); `sdl` is the platform state seen by the capture request at the
end.  The two error labels come in the order of the source:
`error_destroy_window` first, falling through to `error_destroy_renderer`. -/
def sc_screen_otg_init (b : Build) (pf : InitPlatform) (sdl : SDL)
    (screen : sc_screen_otg) (params : sc_screen_otg_params) : InitOutcome :=
  let screen1 : sc_screen_otg :=
    { screen with
      keyboard := params.keyboard
      mouse := params.mouse
      mouse_capture_key_pressed := 0 }
  let title := params.window_title
  let hook : List InitCall := if pf.win32 then [InitCall.SetKeyboardHook] else []
  let x : Int :=
    if params.window_x ≠ SC_WINDOW_POSITION_UNDEFINED then params.window_x
    else SDL_WINDOWPOS_UNDEFINED
  let y : Int :=
    if params.window_y ≠ SC_WINDOW_POSITION_UNDEFINED then params.window_y
    else SDL_WINDOWPOS_UNDEFINED
  let width : Int := if params.window_width ≠ 0 then params.window_width else 256
  let height : Int := if params.window_height ≠ 0 then params.window_height else 256
  let flags0 : Nat := SDL_WINDOW_ALLOW_HIGHDPI
  let flags1 : Nat := if params.always_on_top then flags0 ||| SDL_WINDOW_ALWAYS_ON_TOP else flags0
  let window_flags : Nat :=
    if params.window_borderless then flags1 ||| SDL_WINDOW_BORDERLESS else flags1
  let error_destroy_renderer (renderer : Bool) : List InitCall :=
    [InitCall.SDL_DestroyRenderer renderer]
  let error_destroy_window (renderer : Bool) : List InitCall :=
    [InitCall.SDL_DestroyWindow] ++ error_destroy_renderer renderer
  let c1 : List InitCall :=
    hook ++ [InitCall.SDL_CreateWindow title x y width height window_flags pf.create_window_ok]
  if ¬ pf.create_window_ok then
    ⟨false, screen1, sdl, c1 ++ [InitCall.LOGE_create_window]⟩
  else
    let c2 := c1 ++ [InitCall.SDL_CreateRenderer pf.create_renderer_ok]
    if ¬ pf.create_renderer_ok then
      ⟨false, screen1, sdl, c2 ++ [InitCall.LOGE_create_renderer] ++ error_destroy_window false⟩
    else
      match pf.icon with
      | some (w, h) =>
        let c3 := c2 ++ [InitCall.scrcpy_icon_load true, InitCall.SDL_SetWindowIcon,
          InitCall.SDL_RenderSetLogicalSize w h]
          ++ (if pf.set_logical_size_ok then [] else [InitCall.LOGW_logical_size])
          ++ [InitCall.SDL_CreateTextureFromSurface pf.create_texture_ok,
            InitCall.scrcpy_icon_destroy]
        let screen2 := { screen1 with texture := pf.create_texture_ok }
        if ¬ pf.create_texture_ok then
          ⟨false, screen2, sdl, c3 ++ error_destroy_renderer true⟩
        else if screen2.mouse then
          -- Capture mouse on start
          let r := sc_screen_otg_set_mouse_capture b sdl true
          ⟨true, screen2, r.1, c3 ++ r.2.map InitCall.capture⟩
        else ⟨true, screen2, sdl, c3⟩
      | none =>
        let c3 := c2 ++ [InitCall.scrcpy_icon_load false, InitCall.LOGW_icon]
        let screen2 := { screen1 with texture := false }
        if screen2.mouse then
          -- Capture mouse on start
          let r := sc_screen_otg_set_mouse_capture b sdl true
          ⟨true, screen2, r.1, c3 ++ r.2.map InitCall.capture⟩
        else ⟨true, screen2, sdl, c3⟩

/-- The resources of the platform that are alive. -/
structure Resources where
  window : Bool
  renderer : Bool
  texture : Bool
  deriving DecidableEq

/-- The effect of one call of `sc_screen_otg_init` on the live resources: a
creating call that succeeds makes its resource alive, `SDL_DestroyWindow`
ends the window, `SDL_DestroyRenderer` of a renderer ends it together with its
textures. -/
def Resources.apply (r : Resources) : InitCall → Resources
  | .SDL_CreateWindow _ _ _ _ _ _ ok => { r with window := ok }
  | .SDL_CreateRenderer ok => { r with renderer := ok }
  | .SDL_CreateTextureFromSurface ok => { r with texture := ok }
  | .SDL_DestroyWindow => { r with window := false }
  | .SDL_DestroyRenderer true => { r with renderer := false, texture := false }
  | _ => r

/-- The resources alive after the calls, none being alive before. -/
def liveAfter (calls : List InitCall) : Resources :=
  calls.foldl Resources.apply ⟨false, false, false⟩

/-- The states of the module reachable from a successful
`sc_screen_otg_init` by calls of `sc_screen_otg_handle_event`, the platform
state being arbitrary at each call. -/
inductive Reachable (b : Build) : sc_screen_otg → Prop where
  | init (pf : InitPlatform) (sdl : SDL) (screen : sc_screen_otg)
      (params : sc_screen_otg_params)
      (h : (sc_screen_otg_init b pf sdl screen params).ok = true) :
      Reachable b (sc_screen_otg_init b pf sdl screen params).screen
  | step (screen : sc_screen_otg) (sdl : SDL) (event : SDL_Event)
      (h : Reachable b screen) :
      Reachable b (sc_screen_otg_handle_event b screen sdl event).screen

/-- A platform on which every call of the initialization succeeds, with a
64x64 icon. -/
def samplePlatform : InitPlatform := ⟨false, true, true, some (64, 64), true, true⟩

/-- A configuration that leaves position and size unspecified. -/
def sampleParams (keyboard mouse : Bool) : sc_screen_otg_params :=
  ⟨keyboard, mouse, "scrcpy", false, SC_WINDOW_POSITION_UNDEFINED,
    SC_WINDOW_POSITION_UNDEFINED, 0, 0, false⟩

/-- The number of calls that complete a redraw (`SDL_RenderPresent`, one for
each `sc_screen_otg_render`) or switch the capture mode
(`SDL_SetRelativeMouseMode`, one for each `sc_screen_otg_set_mouse_capture`). -/
def surfaceOperations (calls : List Call) : Nat :=
  (calls.filter (fun c => decide (c = Call.SDL_RenderPresent))).length
    + (calls.filter Call.isSetCapture).length

/-- The number of calls into the keyboard processor or the mouse processor. -/
def processorCalls (calls : List Call) : Nat :=
  (calls.filter Call.isKeyboard).length + (calls.filter Call.isMouse).length

/-- The call warps the pointer. -/
def Call.isWarp : Call → Bool
  | .SDL_WarpMouseInWindow _ _ => true
  | _ => false

/-- Smallest value of the C type `int`. -/
def INT_MIN : Int := -2 ^ 31
/-- Largest value of the C type `int`. -/
def INT_MAX : Int := 2 ^ 31 - 1

/-! ## Basic facts -/

theorem capture_key_ne_zero {k : SDL_Keycode}
    (h : sc_screen_otg_is_mouse_capture_key k = true) : k ≠ 0 := by
  intro h0
  subst h0
  revert h
  decide

theorem set_mouse_capture_ok (b : Build) (sdl : SDL) (want : Bool)
    (hok : sdl.relative_mode_ok = true) :
    (sc_screen_otg_set_mouse_capture b sdl want).1 = { sdl with relative_mode := want } := by
  simp [sc_screen_otg_set_mouse_capture, SDL_SetRelativeMouseMode, hok]

theorem set_mouse_capture_fail (b : Build) (sdl : SDL) (want : Bool)
    (hok : sdl.relative_mode_ok = false) :
    (sc_screen_otg_set_mouse_capture b sdl want).1 = sdl := by
  simp [sc_screen_otg_set_mouse_capture, SDL_SetRelativeMouseMode, hok]

theorem set_mouse_capture_filter (b : Build) (sdl : SDL) (want : Bool) :
    (sc_screen_otg_set_mouse_capture b sdl want).2.filter Call.isSetCapture
        = [Call.SDL_SetRelativeMouseMode want]
      ∧ (sc_screen_otg_set_mouse_capture b sdl want).2.filter Call.isKeyboard = []
      ∧ (sc_screen_otg_set_mouse_capture b sdl want).2.filter Call.isMouse = [] := by
  simp only [sc_screen_otg_set_mouse_capture]
  split_ifs <;> simp [List.filter, Call.isSetCapture, Call.isKeyboard, Call.isMouse]

theorem handle_keydown_toggle (b : Build) (screen : sc_screen_otg) (sdl : SDL)
    (ev : SDL_KeyboardEvent) (hm : screen.mouse = true)
    (hk : sc_screen_otg_is_mouse_capture_key ev.keysym.sym = true) :
    sc_screen_otg_handle_event b screen sdl (.SDL_KEYDOWN ev)
      = ⟨{ screen with mouse_capture_key_pressed :=
            if screen.mouse_capture_key_pressed = 0 then ev.keysym.sym else 0 }, sdl, []⟩ := by
  simp only [sc_screen_otg_handle_event, hm, hk]
  split_ifs <;> simp_all

theorem handle_keyup_toggle (b : Build) (screen : sc_screen_otg) (sdl : SDL)
    (ev : SDL_KeyboardEvent) (hm : screen.mouse = true)
    (hk : sc_screen_otg_is_mouse_capture_key ev.keysym.sym = true) :
    sc_screen_otg_handle_event b screen sdl (.SDL_KEYUP ev)
      = if ev.keysym.sym = screen.mouse_capture_key_pressed then
          ⟨{ screen with mouse_capture_key_pressed := 0 },
            (sc_screen_otg_toggle_mouse_capture b sdl).1,
            (sc_screen_otg_toggle_mouse_capture b sdl).2⟩
        else ⟨{ screen with mouse_capture_key_pressed := 0 }, sdl, []⟩ := by
  simp [sc_screen_otg_handle_event, hm, hk]

theorem run_nil (b : Build) (screen : sc_screen_otg) (sdl : SDL) :
    run b screen sdl [] = ⟨screen, sdl, []⟩ := rfl

theorem run_cons (b : Build) (screen : sc_screen_otg) (sdl : SDL) (e : SDL_Event)
    (es : List SDL_Event) :
    run b screen sdl (e :: es)
      = ⟨(run b (sc_screen_otg_handle_event b screen sdl e).screen
              (sc_screen_otg_handle_event b screen sdl e).sdl es).screen,
          (run b (sc_screen_otg_handle_event b screen sdl e).screen
              (sc_screen_otg_handle_event b screen sdl e).sdl es).sdl,
          (sc_screen_otg_handle_event b screen sdl e).calls
            ++ (run b (sc_screen_otg_handle_event b screen sdl e).screen
              (sc_screen_otg_handle_event b screen sdl e).sdl es).calls⟩ := rfl

/-- Key-ups of toggle keys handled while no chord is pending change nothing
and make no call. -/
theorem run_keyups_idle (b : Build) (sdl : SDL) (ups : List SDL_KeyboardEvent) :
    ∀ screen : sc_screen_otg, screen.mouse = true →
      screen.mouse_capture_key_pressed = 0 →
      (∀ u ∈ ups, sc_screen_otg_is_mouse_capture_key u.keysym.sym = true) →
      run b screen sdl (ups.map SDL_Event.SDL_KEYUP) = ⟨screen, sdl, []⟩ := by
  induction ups with
  | nil => intro screen _ _ _; rfl
  | cons u us ih =>
    intro screen hm hp hall
    have hu : sc_screen_otg_is_mouse_capture_key u.keysym.sym = true :=
      hall u (List.mem_cons_self _ _)
    have hne : ¬ u.keysym.sym = screen.mouse_capture_key_pressed := by
      rw [hp]; exact capture_key_ne_zero hu
    have hs : ({ screen with mouse_capture_key_pressed := 0 } : sc_screen_otg) = screen := by
      cases screen; simp_all
    have hstep : sc_screen_otg_handle_event b screen sdl (.SDL_KEYUP u) = ⟨screen, sdl, []⟩ := by
      rw [handle_keyup_toggle b screen sdl u hm hu, if_neg hne, hs]
    rw [List.map_cons, run_cons, hstep]
    simp only [List.nil_append]
    rw [ih screen hm hp (fun v hv => hall v (List.mem_cons_of_mem _ hv))]

theorem run_append (b : Build) (xs ys : List SDL_Event) :
    ∀ (screen : sc_screen_otg) (sdl : SDL),
      run b screen sdl (xs ++ ys)
        = ⟨(run b (run b screen sdl xs).screen (run b screen sdl xs).sdl ys).screen,
            (run b (run b screen sdl xs).screen (run b screen sdl xs).sdl ys).sdl,
            (run b screen sdl xs).calls
              ++ (run b (run b screen sdl xs).screen (run b screen sdl xs).sdl ys).calls⟩ := by
  induction xs with
  | nil => intro screen sdl; simp [run_nil]
  | cons x xs ih =>
    intro screen sdl
    simp only [List.cons_append, run_cons, ih, List.append_assoc]

theorem trailingDowns_concat (pre : List SDL_Event) (e : SDL_Event) :
    trailingDowns (pre ++ [e]) = if isKeyDown e = true then trailingDowns pre + 1 else 0 := by
  unfold trailingDowns
  rw [List.reverse_concat, List.takeWhile_cons]
  split_ifs <;> simp

/-- After a sequence of toggle-key events started with no chord pending, the
pending chord key is the key of the last event when the sequence ends with an
odd number of consecutive key-downs, and none otherwise. -/
theorem pending_after_toggle_events (b : Build) (screen : sc_screen_otg) (sdl : SDL)
    (hm : screen.mouse = true) (hp : screen.mouse_capture_key_pressed = 0)
    (pre : List SDL_Event) :
    (∀ e ∈ pre, isToggleKeyEvent e = true) →
      (run b screen sdl pre).screen.mouse = true
        ∧ (run b screen sdl pre).sdl.relative_mode_ok = sdl.relative_mode_ok
        ∧ (trailingDowns pre % 2 = 1 →
            ∃ d : SDL_KeyboardEvent, pre.getLast? = some (.SDL_KEYDOWN d)
              ∧ sc_screen_otg_is_mouse_capture_key d.keysym.sym = true
              ∧ (run b screen sdl pre).screen.mouse_capture_key_pressed = d.keysym.sym)
        ∧ (¬ trailingDowns pre % 2 = 1 →
            (run b screen sdl pre).screen.mouse_capture_key_pressed = 0) := by
  induction pre using List.reverseRecOn with
  | nil =>
    intro _
    refine ⟨hm, rfl, ?_, fun _ => hp⟩
    intro h
    simp [trailingDowns] at h
  | append_singleton l a ih =>
    intro hall
    have hl : ∀ e ∈ l, isToggleKeyEvent e = true :=
      fun e he => hall e (List.mem_append_left _ he)
    have ha : isToggleKeyEvent a = true := hall a (by simp)
    obtain ⟨ihm, ihok, ihodd, iheven⟩ := ih hl
    rw [run_append, trailingDowns_concat, List.getLast?_concat]
    simp only [run_cons, run_nil]
    cases a with
    | SDL_KEYDOWN ev =>
      have hk : sc_screen_otg_is_mouse_capture_key ev.keysym.sym = true := ha
      rw [handle_keydown_toggle b _ _ ev ihm hk]
      simp only [isKeyDown, if_true]
      refine ⟨ihm, ihok, ?_, ?_⟩
      · intro hodd
        have hev : ¬ trailingDowns l % 2 = 1 := by omega
        exact ⟨ev, rfl, hk, by simp [iheven hev]⟩
      · intro hnodd
        have hodd : trailingDowns l % 2 = 1 := by omega
        obtain ⟨d, _, hdk, hd⟩ := ihodd hodd
        have hne : ¬ (run b screen sdl l).screen.mouse_capture_key_pressed = 0 := by
          rw [hd]; exact capture_key_ne_zero hdk
        simp [hne]
    | SDL_KEYUP ev =>
      have hk : sc_screen_otg_is_mouse_capture_key ev.keysym.sym = true := ha
      rw [handle_keyup_toggle b _ _ ev ihm hk]
      simp only [isKeyDown, Bool.false_eq_true, if_false]
      refine ⟨?_, ?_, ?_, ?_⟩
      · split_ifs <;> exact ihm
      · split_ifs
        · simp only [sc_screen_otg_toggle_mouse_capture, sc_screen_otg_set_mouse_capture,
            SDL_SetRelativeMouseMode]
          split_ifs <;> simp [ihok]
        · exact ihok
      · intro h; simp at h
      · intro _; split_ifs <;> rfl
    | SDL_WINDOWEVENT _ => simp [isToggleKeyEvent] at ha
    | SDL_MOUSEMOTION _ => simp [isToggleKeyEvent] at ha
    | SDL_MOUSEBUTTONDOWN _ => simp [isToggleKeyEvent] at ha
    | SDL_MOUSEBUTTONUP _ => simp [isToggleKeyEvent] at ha
    | SDL_MOUSEWHEEL _ => simp [isToggleKeyEvent] at ha
    | other _ => simp [isToggleKeyEvent] at ha

/-! ## Claims -/

/-- C1, as the spec states it, fails: after LeftAlt down, LeftGUI down, the
key-up of LeftGUI is preceded by a key-down of LeftGUI with no key-down of
another toggle key between the two, and yet the capture state is not inverted
at it, because the second key-down cancelled the pending chord. -/
theorem C1_counterexample :
    ¬ (invertedAt sampleBuild (sampleScreen true true) (sampleSDL true true)
          [.SDL_KEYDOWN (keyEvent SDLK_LALT), .SDL_KEYDOWN (keyEvent SDLK_LGUI),
            .SDL_KEYUP (keyEvent SDLK_LGUI)] 2
        ↔ chordCompletedAt
          [.SDL_KEYDOWN (keyEvent SDLK_LALT), .SDL_KEYDOWN (keyEvent SDLK_LGUI),
            .SDL_KEYUP (keyEvent SDLK_LGUI)] 2) := by
  intro h
  have hc : chordCompletedAt
      [.SDL_KEYDOWN (keyEvent SDLK_LALT), .SDL_KEYDOWN (keyEvent SDLK_LGUI),
        .SDL_KEYUP (keyEvent SDLK_LGUI)] 2 := by
    refine ⟨keyEvent SDLK_LGUI, rfl, by decide, 1, keyEvent SDLK_LGUI, by decide, rfl, rfl, ?_⟩
    intro m d2 h1 h2
    omega
  have hi := h.mpr hc
  revert hi
  unfold invertedAt
  decide

/-- C1, amended: with a mouse processor attached, no chord pending at the
start and the grab call taking effect, for every finite sequence of key-down
and key-up events of toggle keys in which no key-down arrives for the key
that is pending at that moment, the capture state is inverted at an event if
and only if that event is a key-up, the event just before it is a key-down of
the same key, and that key-down ends a run of consecutive key-downs of odd
length. -/
theorem C1_inverted_iff_armed_release (b : Build) (screen : sc_screen_otg) (sdl : SDL)
    (es : List SDL_Event) (i : Nat)
    (hm : screen.mouse = true) (hp : screen.mouse_capture_key_pressed = 0)
    (hok : sdl.relative_mode_ok = true)
    (hall : ∀ e ∈ es, isToggleKeyEvent e = true)
    (_hno : noRepeatOfPending b screen sdl es = true) :
    invertedAt b screen sdl es i ↔ armedReleaseAt es i := by
  unfold invertedAt captureBefore armedReleaseAt
  rw [List.take_succ]
  cases hei : es[i]? with
  | none => simp
  | some e =>
    have hmem : e ∈ es := List.getElem?_mem hei
    have hpre : ∀ x ∈ es.take i, isToggleKeyEvent x = true :=
      fun x hx => hall x (List.mem_of_mem_take hx)
    obtain ⟨ihm, ihok, ihodd, iheven⟩ :=
      pending_after_toggle_events b screen sdl hm hp (es.take i) hpre
    have he := hall e hmem
    simp only [Option.toList, run_append, run_cons, run_nil]
    cases e with
    | SDL_KEYDOWN ev =>
      have hk : sc_screen_otg_is_mouse_capture_key ev.keysym.sym = true := he
      rw [handle_keydown_toggle b _ _ ev ihm hk]
      simp
    | SDL_KEYUP ev =>
      have hk : sc_screen_otg_is_mouse_capture_key ev.keysym.sym = true := he
      have hok2 : (run b screen sdl (es.take i)).sdl.relative_mode_ok = true := by
        rw [ihok]; exact hok
      rw [handle_keyup_toggle b _ _ ev ihm hk]
      by_cases hodd : trailingDowns (es.take i) % 2 = 1
      · obtain ⟨d, hlast, _, hd⟩ := ihodd hodd
        by_cases heq : ev.keysym.sym = d.keysym.sym
        · rw [if_pos (by rw [hd]; exact heq)]
          simp only [sc_screen_otg_toggle_mouse_capture]
          rw [set_mouse_capture_ok b _ _ hok2]
          simp only [sc_screen_otg_get_mouse_capture, SDL_GetRelativeMouseMode, true_iff]
          exact ⟨ev, d, rfl, hlast, heq.symm, hodd⟩
        · rw [if_neg (by rw [hd]; exact heq)]
          simp only [Bool.eq_not_self, false_iff]
          rintro ⟨u, d2, hu, hl2, hs, _⟩
          rw [hlast] at hl2
          injection hl2 with hl2
          injection hl2 with hl2
          injection hu with hu
          injection hu with hu
          subst hl2 hu
          exact heq hs.symm
      · have h0 := iheven hodd
        have hne : ¬ ev.keysym.sym = (run b screen sdl (es.take i)).screen.mouse_capture_key_pressed := by
          rw [h0]; exact capture_key_ne_zero hk
        rw [if_neg hne]
        simp only [Bool.eq_not_self, false_iff]
        rintro ⟨_, _, _, _, _, hodd2⟩
        exact hodd hodd2
    | SDL_WINDOWEVENT _ => simp [isToggleKeyEvent] at he
    | SDL_MOUSEMOTION _ => simp [isToggleKeyEvent] at he
    | SDL_MOUSEBUTTONDOWN _ => simp [isToggleKeyEvent] at he
    | SDL_MOUSEBUTTONUP _ => simp [isToggleKeyEvent] at he
    | SDL_MOUSEWHEEL _ => simp [isToggleKeyEvent] at he
    | other _ => simp [isToggleKeyEvent] at he

/-- Witness of C1: in LeftAlt down, LeftGUI down, RightGUI down, RightGUI up
the last event is an armed release (the run of three key-downs is odd), and
the capture state is inverted at it. -/
theorem C1_inverted_iff_armed_release_witness :
    invertedAt sampleBuild (sampleScreen true true) (sampleSDL true true)
      [.SDL_KEYDOWN (keyEvent SDLK_LALT), .SDL_KEYDOWN (keyEvent SDLK_LGUI),
        .SDL_KEYDOWN (keyEvent SDLK_RGUI), .SDL_KEYUP (keyEvent SDLK_RGUI)] 3 :=
  (C1_inverted_iff_armed_release sampleBuild (sampleScreen true true) (sampleSDL true true)
    [.SDL_KEYDOWN (keyEvent SDLK_LALT), .SDL_KEYDOWN (keyEvent SDLK_LGUI),
      .SDL_KEYDOWN (keyEvent SDLK_RGUI), .SDL_KEYUP (keyEvent SDLK_RGUI)] 3
    rfl rfl rfl (by decide) (by decide)).mpr
    ⟨keyEvent SDLK_RGUI, keyEvent SDLK_RGUI, rfl, rfl, rfl, by decide⟩

/-- C2 fails on the code: with a chord pending on LeftAlt, a repeated
key-down of LeftAlt clears the pending key, and in LeftAlt down, LeftAlt down
(repeat), LeftAlt up the capture state is as it was at the start. -/
theorem C2_repeat_keydown_clears_pending :
    (sc_screen_otg_handle_event sampleBuild ⟨true, true, true, SDLK_LALT⟩ (sampleSDL true true)
        (.SDL_KEYDOWN ⟨⟨0, SDLK_LALT, 0⟩, 1⟩)).screen.mouse_capture_key_pressed = 0
      ∧ sc_screen_otg_get_mouse_capture
          (run sampleBuild (sampleScreen true true) (sampleSDL true true)
            [.SDL_KEYDOWN ⟨⟨0, SDLK_LALT, 0⟩, 0⟩, .SDL_KEYDOWN ⟨⟨0, SDLK_LALT, 0⟩, 1⟩,
              .SDL_KEYUP ⟨⟨0, SDLK_LALT, 0⟩, 0⟩]).sdl = true
      ∧ (run sampleBuild (sampleScreen true true) (sampleSDL true true)
            [.SDL_KEYDOWN ⟨⟨0, SDLK_LALT, 0⟩, 0⟩, .SDL_KEYDOWN ⟨⟨0, SDLK_LALT, 0⟩, 1⟩,
              .SDL_KEYUP ⟨⟨0, SDLK_LALT, 0⟩, 0⟩]).calls = [] := by
  decide

/-- C3: with a mouse processor attached and no chord pending, after
key-down(k1) then key-down(k2) of two distinct toggle keys the pending chord
key is none, and any following key-ups of k1 and k2, in any order and number,
leave the capture state unchanged and make no call at all, so no capture-mode
call. -/
theorem C3_second_toggle_key_cancels (b : Build) (screen : sc_screen_otg) (sdl : SDL)
    (d1 d2 : SDL_KeyboardEvent) (ups : List SDL_KeyboardEvent)
    (hm : screen.mouse = true) (hp : screen.mouse_capture_key_pressed = 0)
    (h1 : sc_screen_otg_is_mouse_capture_key d1.keysym.sym = true)
    (h2 : sc_screen_otg_is_mouse_capture_key d2.keysym.sym = true)
    (_hne : d1.keysym.sym ≠ d2.keysym.sym)
    (hups : ∀ u ∈ ups, u.keysym.sym = d1.keysym.sym ∨ u.keysym.sym = d2.keysym.sym) :
    (run b screen sdl [.SDL_KEYDOWN d1, .SDL_KEYDOWN d2]).screen.mouse_capture_key_pressed = 0
      ∧ sc_screen_otg_get_mouse_capture
          (run b screen sdl
            ([.SDL_KEYDOWN d1, .SDL_KEYDOWN d2] ++ ups.map SDL_Event.SDL_KEYUP)).sdl
          = sc_screen_otg_get_mouse_capture sdl
      ∧ (run b screen sdl
            ([.SDL_KEYDOWN d1, .SDL_KEYDOWN d2] ++ ups.map SDL_Event.SDL_KEYUP)).calls = [] := by
  have hd1 : sc_screen_otg_handle_event b screen sdl (.SDL_KEYDOWN d1)
      = ⟨{ screen with mouse_capture_key_pressed := d1.keysym.sym }, sdl, []⟩ := by
    rw [handle_keydown_toggle b screen sdl d1 hm h1, if_pos hp]
  have hd2 : sc_screen_otg_handle_event b
      { screen with mouse_capture_key_pressed := d1.keysym.sym } sdl (.SDL_KEYDOWN d2)
      = ⟨screen, sdl, []⟩ := by
    rw [handle_keydown_toggle b { screen with mouse_capture_key_pressed := d1.keysym.sym }
      sdl d2 hm h2, if_neg (capture_key_ne_zero h1)]
    cases screen; simp_all
  have hall : ∀ u ∈ ups, sc_screen_otg_is_mouse_capture_key u.keysym.sym = true := by
    intro u hu
    rcases hups u hu with h | h <;> rw [h] <;> assumption
  have hups0 := run_keyups_idle b sdl ups screen hm hp hall
  refine ⟨?_, ?_, ?_⟩
  · simp only [run_cons, hd1, hd2, run_nil, hp]
  · simp only [List.cons_append, List.nil_append, run_cons, hd1, hd2, hups0]
  · simp only [List.cons_append, List.nil_append, run_cons, hd1, hd2, hups0, List.append_nil]

/-- Witness of C3: LeftAlt down, LeftGUI down, then LeftGUI up and LeftAlt
up. -/
theorem C3_second_toggle_key_cancels_witness :
    (run sampleBuild (sampleScreen true true) (sampleSDL true true)
        [.SDL_KEYDOWN (keyEvent SDLK_LALT),
          .SDL_KEYDOWN (keyEvent SDLK_LGUI)]).screen.mouse_capture_key_pressed = 0
      ∧ sc_screen_otg_get_mouse_capture
          (run sampleBuild (sampleScreen true true) (sampleSDL true true)
            ([.SDL_KEYDOWN (keyEvent SDLK_LALT), .SDL_KEYDOWN (keyEvent SDLK_LGUI)]
              ++ [keyEvent SDLK_LGUI, keyEvent SDLK_LALT].map SDL_Event.SDL_KEYUP)).sdl
          = sc_screen_otg_get_mouse_capture (sampleSDL true true)
      ∧ (run sampleBuild (sampleScreen true true) (sampleSDL true true)
            ([.SDL_KEYDOWN (keyEvent SDLK_LALT), .SDL_KEYDOWN (keyEvent SDLK_LGUI)]
              ++ [keyEvent SDLK_LGUI, keyEvent SDLK_LALT].map SDL_Event.SDL_KEYUP)).calls = [] :=
  C3_second_toggle_key_cancels sampleBuild (sampleScreen true true) (sampleSDL true true)
    (keyEvent SDLK_LALT) (keyEvent SDLK_LGUI) [keyEvent SDLK_LGUI, keyEvent SDLK_LALT]
    rfl rfl (by decide) (by decide) (by decide) (by decide)

/-- C4: with a mouse processor attached, no chord pending and the grab call
taking effect, key-down(k) immediately followed by key-up(k) of a toggle key
k ends with the capture state negated and no chord pending, and calls neither
the keyboard processor nor the mouse processor, whether or not a keyboard
processor is attached. -/
theorem C4_down_up_toggles (b : Build) (screen : sc_screen_otg) (sdl : SDL)
    (d u : SDL_KeyboardEvent)
    (hm : screen.mouse = true) (hp : screen.mouse_capture_key_pressed = 0)
    (hok : sdl.relative_mode_ok = true)
    (hk : sc_screen_otg_is_mouse_capture_key d.keysym.sym = true)
    (hsame : u.keysym.sym = d.keysym.sym) :
    sc_screen_otg_get_mouse_capture (run b screen sdl [.SDL_KEYDOWN d, .SDL_KEYUP u]).sdl
        = !sc_screen_otg_get_mouse_capture sdl
      ∧ (run b screen sdl [.SDL_KEYDOWN d, .SDL_KEYUP u]).screen.mouse_capture_key_pressed = 0
      ∧ (run b screen sdl [.SDL_KEYDOWN d, .SDL_KEYUP u]).calls.filter Call.isKeyboard = []
      ∧ (run b screen sdl [.SDL_KEYDOWN d, .SDL_KEYUP u]).calls.filter Call.isMouse = [] := by
  have hku : sc_screen_otg_is_mouse_capture_key u.keysym.sym = true := by rw [hsame]; exact hk
  have hd : sc_screen_otg_handle_event b screen sdl (.SDL_KEYDOWN d)
      = ⟨{ screen with mouse_capture_key_pressed := d.keysym.sym }, sdl, []⟩ := by
    rw [handle_keydown_toggle b screen sdl d hm hk, if_pos hp]
  have hu : sc_screen_otg_handle_event b
      { screen with mouse_capture_key_pressed := d.keysym.sym } sdl (.SDL_KEYUP u)
      = ⟨{ screen with mouse_capture_key_pressed := 0 },
          (sc_screen_otg_toggle_mouse_capture b sdl).1,
          (sc_screen_otg_toggle_mouse_capture b sdl).2⟩ := by
    rw [handle_keyup_toggle b { screen with mouse_capture_key_pressed := d.keysym.sym }
      sdl u hm hku, if_pos hsame]
  have hf := set_mouse_capture_filter b sdl (!sc_screen_otg_get_mouse_capture sdl)
  simp only [run_cons, run_nil, hd, hu, List.nil_append, List.append_nil,
    sc_screen_otg_toggle_mouse_capture]
  refine ⟨?_, trivial, hf.2.1, hf.2.2⟩
  rw [set_mouse_capture_ok b sdl _ hok]
  rfl

/-- Witness of C4: capture engaged, no keyboard processor, LeftAlt down then
up. -/
theorem C4_down_up_toggles_witness :
    sc_screen_otg_get_mouse_capture
        (run sampleBuild (sampleScreen false true) (sampleSDL true true)
          [.SDL_KEYDOWN (keyEvent SDLK_LALT), .SDL_KEYUP (keyEvent SDLK_LALT)]).sdl
        = !sc_screen_otg_get_mouse_capture (sampleSDL true true)
      ∧ (run sampleBuild (sampleScreen false true) (sampleSDL true true)
          [.SDL_KEYDOWN (keyEvent SDLK_LALT),
            .SDL_KEYUP (keyEvent SDLK_LALT)]).screen.mouse_capture_key_pressed = 0
      ∧ (run sampleBuild (sampleScreen false true) (sampleSDL true true)
          [.SDL_KEYDOWN (keyEvent SDLK_LALT),
            .SDL_KEYUP (keyEvent SDLK_LALT)]).calls.filter Call.isKeyboard = []
      ∧ (run sampleBuild (sampleScreen false true) (sampleSDL true true)
          [.SDL_KEYDOWN (keyEvent SDLK_LALT),
            .SDL_KEYUP (keyEvent SDLK_LALT)]).calls.filter Call.isMouse = [] :=
  C4_down_up_toggles sampleBuild (sampleScreen false true) (sampleSDL true true)
    (keyEvent SDLK_LALT) (keyEvent SDLK_LALT) rfl rfl rfl (by decide) rfl

/-- C5: with a mouse processor attached, in every state, a key-down or a
key-up of LeftAlt, LeftGUI or RightGUI makes no call to the keyboard
processor. -/
theorem C5_toggle_keys_absorbed (b : Build) (screen : sc_screen_otg) (sdl : SDL)
    (ev : SDL_KeyboardEvent) (hm : screen.mouse = true)
    (hk : sc_screen_otg_is_mouse_capture_key ev.keysym.sym = true) :
    (sc_screen_otg_handle_event b screen sdl (.SDL_KEYDOWN ev)).calls.filter Call.isKeyboard = []
      ∧ (sc_screen_otg_handle_event b screen sdl (.SDL_KEYUP ev)).calls.filter
          Call.isKeyboard = [] := by
  constructor
  · rw [handle_keydown_toggle b screen sdl ev hm hk]
    rfl
  · rw [handle_keyup_toggle b screen sdl ev hm hk]
    split_ifs
    · exact (set_mouse_capture_filter b sdl _).2.1
    · rfl

/-- Witness of C5: keyboard and mouse attached, LeftGUI pending, a RightGUI
event. -/
theorem C5_toggle_keys_absorbed_witness :
    (sc_screen_otg_handle_event sampleBuild ⟨true, true, true, SDLK_LGUI⟩ (sampleSDL true true)
        (.SDL_KEYDOWN (keyEvent SDLK_RGUI))).calls.filter Call.isKeyboard = []
      ∧ (sc_screen_otg_handle_event sampleBuild ⟨true, true, true, SDLK_LGUI⟩
          (sampleSDL true true) (.SDL_KEYUP (keyEvent SDLK_RGUI))).calls.filter
          Call.isKeyboard = [] :=
  C5_toggle_keys_absorbed sampleBuild ⟨true, true, true, SDLK_LGUI⟩ (sampleSDL true true)
    (keyEvent SDLK_RGUI) rfl (by decide)

/-- C6: with a mouse processor attached and capture false, a pointer motion,
a pointer wheel and a pointer button-down event each make no call at all and
leave the module state and the platform state, so capture and the pending
chord key, as they were. -/
theorem C6_uncaptured_pointer_dropped (b : Build) (screen : sc_screen_otg) (sdl : SDL)
    (m : SDL_MouseMotionEvent) (w : SDL_MouseWheelEvent) (d : SDL_MouseButtonEvent)
    (hm : screen.mouse = true) (hc : sc_screen_otg_get_mouse_capture sdl = false) :
    sc_screen_otg_handle_event b screen sdl (.SDL_MOUSEMOTION m) = ⟨screen, sdl, []⟩
      ∧ sc_screen_otg_handle_event b screen sdl (.SDL_MOUSEWHEEL w) = ⟨screen, sdl, []⟩
      ∧ sc_screen_otg_handle_event b screen sdl (.SDL_MOUSEBUTTONDOWN d)
          = ⟨screen, sdl, []⟩ := by
  simp [sc_screen_otg_handle_event, hm, hc]

/-- Witness of C6: capture released, a chord pending on LeftAlt. -/
theorem C6_uncaptured_pointer_dropped_witness :
    sc_screen_otg_handle_event sampleBuild ⟨true, true, true, SDLK_LALT⟩ (sampleSDL false true)
        (.SDL_MOUSEMOTION ⟨1, 0, 0, 5, -3⟩)
        = ⟨⟨true, true, true, SDLK_LALT⟩, sampleSDL false true, []⟩
      ∧ sc_screen_otg_handle_event sampleBuild ⟨true, true, true, SDLK_LALT⟩
          (sampleSDL false true) (.SDL_MOUSEWHEEL ⟨0, 1, 0⟩)
          = ⟨⟨true, true, true, SDLK_LALT⟩, sampleSDL false true, []⟩
      ∧ sc_screen_otg_handle_event sampleBuild ⟨true, true, true, SDLK_LALT⟩
          (sampleSDL false true) (.SDL_MOUSEBUTTONDOWN ⟨1, 1, 1, 0, 0⟩)
          = ⟨⟨true, true, true, SDLK_LALT⟩, sampleSDL false true, []⟩ :=
  C6_uncaptured_pointer_dropped sampleBuild ⟨true, true, true, SDLK_LALT⟩ (sampleSDL false true)
    ⟨1, 0, 0, 5, -3⟩ ⟨0, 1, 0⟩ ⟨1, 1, 1, 0, 0⟩ rfl rfl

/-- C7: with a mouse processor attached, a pointer button-up handled while
capture is false makes exactly one capture-mode call, with value true, and no
call to the mouse processor, and capture is true afterwards when the grab
call takes effect; handled while capture is true that same event is forwarded
as exactly one click, carrying the translated release action, the translated
button of the raw event and the translated button state of the platform, and
this is the only call made, the module state and the platform state being
left as they were. -/
theorem C7_button_up (b : Build) (screen : sc_screen_otg) (sdl : SDL)
    (ev : SDL_MouseButtonEvent) (hm : screen.mouse = true) :
    (sc_screen_otg_get_mouse_capture sdl = false →
        (sc_screen_otg_handle_event b screen sdl (.SDL_MOUSEBUTTONUP ev)).calls.filter
            Call.isSetCapture = [Call.SDL_SetRelativeMouseMode true]
          ∧ (sc_screen_otg_handle_event b screen sdl (.SDL_MOUSEBUTTONUP ev)).calls.filter
              Call.isMouse = []
          ∧ (sdl.relative_mode_ok = true →
              sc_screen_otg_get_mouse_capture
                (sc_screen_otg_handle_event b screen sdl (.SDL_MOUSEBUTTONUP ev)).sdl = true))
      ∧ (sc_screen_otg_get_mouse_capture sdl = true →
          sc_screen_otg_handle_event b screen sdl (.SDL_MOUSEBUTTONUP ev)
            = ⟨screen, sdl,
                [Call.process_mouse_click
                  ⟨b.ie.sc_action_from_sdl_mousebutton_type SDL_MOUSEBUTTONUP,
                    b.ie.sc_mouse_button_from_sdl ev.button,
                    b.ie.sc_mouse_buttons_state_from_sdl (SDL_GetMouseState sdl) true⟩]⟩) := by
  constructor
  · intro hc
    have hf := set_mouse_capture_filter b sdl true
    simp only [sc_screen_otg_handle_event, hm, hc, if_true, Bool.false_eq_true, if_false]
    refine ⟨hf.1, hf.2.2, fun hok => ?_⟩
    rw [set_mouse_capture_ok b sdl true hok]
    rfl
  · intro hc
    simp only [sc_screen_otg_handle_event, hm, hc, if_true, sc_screen_otg_process_mouse_button]

/-- Witness of C7: a left button release with capture released, and a middle
button release with capture engaged while the platform reports the middle
button held (state 2). -/
theorem C7_button_up_witness :
    ((sc_screen_otg_handle_event sampleBuild (sampleScreen true true) (sampleSDL false true)
          (.SDL_MOUSEBUTTONUP ⟨1, 0, 1, 0, 0⟩)).calls.filter
            Call.isSetCapture = [Call.SDL_SetRelativeMouseMode true]
        ∧ (sc_screen_otg_handle_event sampleBuild (sampleScreen true true)
            (sampleSDL false true) (.SDL_MOUSEBUTTONUP ⟨1, 0, 1, 0, 0⟩)).calls.filter
              Call.isMouse = []
        ∧ sc_screen_otg_get_mouse_capture
            (sc_screen_otg_handle_event sampleBuild (sampleScreen true true)
              (sampleSDL false true) (.SDL_MOUSEBUTTONUP ⟨1, 0, 1, 0, 0⟩)).sdl = true)
      ∧ sc_screen_otg_handle_event sampleBuild (sampleScreen true true)
          ⟨true, true, 2, 10, 10, 0, 0, 256, 256⟩ (.SDL_MOUSEBUTTONUP ⟨3, 0, 1, 0, 0⟩)
        = ⟨sampleScreen true true, ⟨true, true, 2, 10, 10, 0, 0, 256, 256⟩,
            [Call.process_mouse_click ⟨sc_action.SC_ACTION_UP, 4, 2⟩]⟩ :=
  ⟨⟨((C7_button_up sampleBuild (sampleScreen true true) (sampleSDL false true)
        ⟨1, 0, 1, 0, 0⟩ rfl).1 rfl).1,
      ((C7_button_up sampleBuild (sampleScreen true true) (sampleSDL false true)
        ⟨1, 0, 1, 0, 0⟩ rfl).1 rfl).2.1,
      ((C7_button_up sampleBuild (sampleScreen true true) (sampleSDL false true)
        ⟨1, 0, 1, 0, 0⟩ rfl).1 rfl).2.2 rfl⟩,
    (C7_button_up sampleBuild (sampleScreen true true) ⟨true, true, 2, 10, 10, 0, 0, 256, 256⟩
      ⟨3, 0, 1, 0, 0⟩ rfl).2 rfl⟩

/-- C8: with a mouse processor attached and capture true, a pointer motion is
forwarded as exactly one motion event with `xrel` and `yrel` of the raw
event, a wheel event as exactly one scroll event with `hscroll = x` and
`vscroll = y`, a button-down and a button-up as exactly one click event with
the translated action and button; that call is the only call made, and the
module state and the platform state, so capture, are as before. -/
theorem C8_captured_pointer_forwarded (b : Build) (screen : sc_screen_otg) (sdl : SDL)
    (m : SDL_MouseMotionEvent) (w : SDL_MouseWheelEvent) (d : SDL_MouseButtonEvent)
    (hm : screen.mouse = true) (hc : sc_screen_otg_get_mouse_capture sdl = true) :
    (∃ bs, sc_screen_otg_handle_event b screen sdl (.SDL_MOUSEMOTION m)
        = ⟨screen, sdl, [Call.process_mouse_motion ⟨m.xrel, m.yrel, bs⟩]⟩)
      ∧ (∃ bs, sc_screen_otg_handle_event b screen sdl (.SDL_MOUSEWHEEL w)
          = ⟨screen, sdl, [Call.process_mouse_scroll ⟨w.x, w.y, bs⟩]⟩)
      ∧ (∃ bs, sc_screen_otg_handle_event b screen sdl (.SDL_MOUSEBUTTONDOWN d)
          = ⟨screen, sdl, [Call.process_mouse_click
              ⟨b.ie.sc_action_from_sdl_mousebutton_type SDL_MOUSEBUTTONDOWN,
                b.ie.sc_mouse_button_from_sdl d.button, bs⟩]⟩)
      ∧ (∃ bs, sc_screen_otg_handle_event b screen sdl (.SDL_MOUSEBUTTONUP d)
          = ⟨screen, sdl, [Call.process_mouse_click
              ⟨b.ie.sc_action_from_sdl_mousebutton_type SDL_MOUSEBUTTONUP,
                b.ie.sc_mouse_button_from_sdl d.button, bs⟩]⟩) := by
  refine ⟨⟨b.ie.sc_mouse_buttons_state_from_sdl m.state true, ?_⟩,
    ⟨b.ie.sc_mouse_buttons_state_from_sdl (SDL_GetMouseState sdl) true, ?_⟩,
    ⟨b.ie.sc_mouse_buttons_state_from_sdl (SDL_GetMouseState sdl) true, ?_⟩,
    ⟨b.ie.sc_mouse_buttons_state_from_sdl (SDL_GetMouseState sdl) true, ?_⟩⟩
  · simp only [sc_screen_otg_handle_event, hm, hc, Bool.and_self, if_true,
      sc_screen_otg_process_mouse_motion]
  · simp only [sc_screen_otg_handle_event, hm, hc, Bool.and_self, if_true,
      sc_screen_otg_process_mouse_wheel]
  · simp only [sc_screen_otg_handle_event, hm, hc, Bool.and_self, if_true,
      sc_screen_otg_process_mouse_button]
  · simp only [sc_screen_otg_handle_event, hm, hc, if_true,
      sc_screen_otg_process_mouse_button]

/-- Witness of C8: the scenario motion(5, -3), with a wheel and a left button
event. -/
theorem C8_captured_pointer_forwarded_witness :
    (∃ bs, sc_screen_otg_handle_event sampleBuild (sampleScreen false true)
        (sampleSDL true true) (.SDL_MOUSEMOTION ⟨0, 40, 40, 5, -3⟩)
        = ⟨sampleScreen false true, sampleSDL true true,
            [Call.process_mouse_motion ⟨5, -3, bs⟩]⟩)
      ∧ (∃ bs, sc_screen_otg_handle_event sampleBuild (sampleScreen false true)
          (sampleSDL true true) (.SDL_MOUSEWHEEL ⟨0, 1, 0⟩)
          = ⟨sampleScreen false true, sampleSDL true true,
              [Call.process_mouse_scroll ⟨0, 1, bs⟩]⟩)
      ∧ (∃ bs, sc_screen_otg_handle_event sampleBuild (sampleScreen false true)
          (sampleSDL true true) (.SDL_MOUSEBUTTONDOWN ⟨1, 1, 1, 0, 0⟩)
          = ⟨sampleScreen false true, sampleSDL true true,
              [Call.process_mouse_click ⟨sc_action.SC_ACTION_DOWN, 1, bs⟩]⟩)
      ∧ (∃ bs, sc_screen_otg_handle_event sampleBuild (sampleScreen false true)
          (sampleSDL true true) (.SDL_MOUSEBUTTONUP ⟨1, 1, 1, 0, 0⟩)
          = ⟨sampleScreen false true, sampleSDL true true,
              [Call.process_mouse_click ⟨sc_action.SC_ACTION_UP, 1, bs⟩]⟩) :=
  C8_captured_pointer_forwarded sampleBuild (sampleScreen false true) (sampleSDL true true)
    ⟨0, 40, 40, 5, -3⟩ ⟨0, 1, 0⟩ ⟨1, 1, 1, 0, 0⟩ rfl rfl

/-- C9, as the spec states it, fails for motion: with capture engaged and no
button held on the platform, a motion event that recorded the left button
held is forwarded with bitmask 1, which is not the translation (0) of the
button state queried at dispatch time. -/
theorem C9_counterexample :
    (sc_screen_otg_handle_event sampleBuild (sampleScreen false true) (sampleSDL true true)
        (.SDL_MOUSEMOTION ⟨1, 40, 40, 5, -3⟩)).calls
        = [Call.process_mouse_motion ⟨5, -3, 1⟩]
      ∧ (sc_screen_otg_handle_event sampleBuild (sampleScreen false true) (sampleSDL true true)
          (.SDL_MOUSEMOTION ⟨1, 40, 40, 5, -3⟩)).calls
        ≠ [Call.process_mouse_motion ⟨5, -3,
            sampleBuild.ie.sc_mouse_buttons_state_from_sdl
              (SDL_GetMouseState (sampleSDL true true)) true⟩] := by
  decide

/-- C9, amended: while capture is true, the bitmask of a forwarded click
(button-down or button-up) and of a forwarded scroll is the translation of
the button state queried from the platform at dispatch time, and the bitmask
of a forwarded motion is the translation of the button state recorded in the
raw motion event. -/
theorem C9_buttons_state_source (b : Build) (screen : sc_screen_otg) (sdl : SDL)
    (m : SDL_MouseMotionEvent) (w : SDL_MouseWheelEvent) (d : SDL_MouseButtonEvent)
    (hm : screen.mouse = true) (hc : sc_screen_otg_get_mouse_capture sdl = true) :
    (sc_screen_otg_handle_event b screen sdl (.SDL_MOUSEMOTION m)).calls
        = [Call.process_mouse_motion
            ⟨m.xrel, m.yrel, b.ie.sc_mouse_buttons_state_from_sdl m.state true⟩]
      ∧ (sc_screen_otg_handle_event b screen sdl (.SDL_MOUSEWHEEL w)).calls
        = [Call.process_mouse_scroll
            ⟨w.x, w.y, b.ie.sc_mouse_buttons_state_from_sdl (SDL_GetMouseState sdl) true⟩]
      ∧ (sc_screen_otg_handle_event b screen sdl (.SDL_MOUSEBUTTONDOWN d)).calls
        = [Call.process_mouse_click
            ⟨b.ie.sc_action_from_sdl_mousebutton_type SDL_MOUSEBUTTONDOWN,
              b.ie.sc_mouse_button_from_sdl d.button,
              b.ie.sc_mouse_buttons_state_from_sdl (SDL_GetMouseState sdl) true⟩]
      ∧ (sc_screen_otg_handle_event b screen sdl (.SDL_MOUSEBUTTONUP d)).calls
        = [Call.process_mouse_click
            ⟨b.ie.sc_action_from_sdl_mousebutton_type SDL_MOUSEBUTTONUP,
              b.ie.sc_mouse_button_from_sdl d.button,
              b.ie.sc_mouse_buttons_state_from_sdl (SDL_GetMouseState sdl) true⟩] := by
  refine ⟨?_, ?_, ?_, ?_⟩
  · simp only [sc_screen_otg_handle_event, hm, hc, Bool.and_self, if_true,
      sc_screen_otg_process_mouse_motion]
  · simp only [sc_screen_otg_handle_event, hm, hc, Bool.and_self, if_true,
      sc_screen_otg_process_mouse_wheel]
  · simp only [sc_screen_otg_handle_event, hm, hc, Bool.and_self, if_true,
      sc_screen_otg_process_mouse_button]
  · simp only [sc_screen_otg_handle_event, hm, hc, if_true,
      sc_screen_otg_process_mouse_button]

/-- Witness of C9: the platform reports the middle button held (state 2)
while the raw motion event recorded the left button (state 1). -/
theorem C9_buttons_state_source_witness :
    (sc_screen_otg_handle_event sampleBuild (sampleScreen false true)
        ⟨true, true, 2, 10, 10, 0, 0, 256, 256⟩ (.SDL_MOUSEMOTION ⟨1, 40, 40, 5, -3⟩)).calls
        = [Call.process_mouse_motion ⟨5, -3, 1⟩]
      ∧ (sc_screen_otg_handle_event sampleBuild (sampleScreen false true)
          ⟨true, true, 2, 10, 10, 0, 0, 256, 256⟩ (.SDL_MOUSEWHEEL ⟨0, 1, 0⟩)).calls
        = [Call.process_mouse_scroll ⟨0, 1, 2⟩]
      ∧ (sc_screen_otg_handle_event sampleBuild (sampleScreen false true)
          ⟨true, true, 2, 10, 10, 0, 0, 256, 256⟩
          (.SDL_MOUSEBUTTONDOWN ⟨3, 1, 1, 0, 0⟩)).calls
        = [Call.process_mouse_click ⟨sc_action.SC_ACTION_DOWN, 4, 2⟩]
      ∧ (sc_screen_otg_handle_event sampleBuild (sampleScreen false true)
          ⟨true, true, 2, 10, 10, 0, 0, 256, 256⟩
          (.SDL_MOUSEBUTTONUP ⟨3, 1, 1, 0, 0⟩)).calls
        = [Call.process_mouse_click ⟨sc_action.SC_ACTION_UP, 4, 2⟩] :=
  C9_buttons_state_source sampleBuild (sampleScreen false true)
    ⟨true, true, 2, 10, 10, 0, 0, 256, 256⟩ ⟨1, 40, 40, 5, -3⟩ ⟨0, 1, 0⟩ ⟨3, 1, 1, 0, 0⟩
    rfl rfl

/-- C10, as the spec states it, fails: when the platform call fails and does
not take effect, `sc_screen_otg_get_mouse_capture` after
`sc_screen_otg_set_mouse_capture(screen, true)` still returns false. -/
theorem C10_counterexample :
    sc_screen_otg_get_mouse_capture
        (sc_screen_otg_set_mouse_capture sampleBuild (sampleSDL false false) true).1
      ≠ true := by
  decide

/-- C10, amended: after `sc_screen_otg_set_mouse_capture(screen, want)`,
`sc_screen_otg_get_mouse_capture` returns `want` when the platform call takes
effect, for both values of `want` and every prior state; when the platform
call fails and does not take effect it returns what it returned before, and
the failure is logged. -/
theorem C10_get_after_set (b : Build) (sdl : SDL) (want : Bool) :
    (sdl.relative_mode_ok = true →
        sc_screen_otg_get_mouse_capture (sc_screen_otg_set_mouse_capture b sdl want).1 = want)
      ∧ (sdl.relative_mode_ok = false →
          sc_screen_otg_get_mouse_capture (sc_screen_otg_set_mouse_capture b sdl want).1
              = sc_screen_otg_get_mouse_capture sdl
            ∧ Call.LOGE_relative_mouse_mode want
                ∈ (sc_screen_otg_set_mouse_capture b sdl want).2) := by
  constructor
  · intro hok
    rw [set_mouse_capture_ok b sdl want hok]
    rfl
  · intro hok
    rw [set_mouse_capture_fail b sdl want hok]
    refine ⟨rfl, ?_⟩
    simp [sc_screen_otg_set_mouse_capture, SDL_SetRelativeMouseMode, hok]

/-- Witness of C10: releasing an engaged capture, once with the platform call
taking effect and once with it failing. -/
theorem C10_get_after_set_witness :
    sc_screen_otg_get_mouse_capture
        (sc_screen_otg_set_mouse_capture sampleBuild (sampleSDL true true) false).1 = false
      ∧ sc_screen_otg_get_mouse_capture
          (sc_screen_otg_set_mouse_capture sampleBuild (sampleSDL true false) false).1
          = sc_screen_otg_get_mouse_capture (sampleSDL true false)
      ∧ Call.LOGE_relative_mouse_mode false
          ∈ (sc_screen_otg_set_mouse_capture sampleBuild (sampleSDL true false) false).2 :=
  ⟨(C10_get_after_set sampleBuild (sampleSDL true true) false).1 rfl,
    (C10_get_after_set sampleBuild (sampleSDL true false) false).2 rfl⟩

/-- What a failed `sc_screen_otg_init` leaves alive: never the renderer, and
the window exactly when the failure is that of the icon texture. -/
theorem init_failure_resources (b : Build) (pf : InitPlatform) (sdl : SDL)
    (screen : sc_screen_otg) (params : sc_screen_otg_params)
    (hfail : (sc_screen_otg_init b pf sdl screen params).ok = false) :
    (liveAfter (sc_screen_otg_init b pf sdl screen params).calls).renderer = false
      ∧ ((liveAfter (sc_screen_otg_init b pf sdl screen params).calls).window = true
          ↔ (pf.create_window_ok = true ∧ pf.create_renderer_ok = true
              ∧ pf.icon.isSome = true)) := by
  obtain ⟨win32, wok, rok, icon, lok, tok⟩ := pf
  cases win32 <;> cases wok <;> cases rok <;> cases icon <;> cases lok <;> cases tok <;>
    cases hmouse : params.mouse <;>
    simp_all [sc_screen_otg_init, liveAfter, Resources.apply]

/-- C11 fails on the code: when the window and the renderer have been created
and the creation of the icon texture fails, `sc_screen_otg_init` returns false
after destroying the renderer only; the window is still alive. -/
theorem C11_texture_failure_leaves_window :
    (sc_screen_otg_init sampleBuild ⟨false, true, true, some (64, 64), true, false⟩
        (sampleSDL false true) (sampleScreen false false) (sampleParams true true)).ok = false
      ∧ (liveAfter (sc_screen_otg_init sampleBuild ⟨false, true, true, some (64, 64), true, false⟩
          (sampleSDL false true) (sampleScreen false false)
          (sampleParams true true)).calls).window = true
      ∧ (liveAfter (sc_screen_otg_init sampleBuild ⟨false, true, true, some (64, 64), true, false⟩
          (sampleSDL false true) (sampleScreen false false)
          (sampleParams true true)).calls).renderer = false
      ∧ InitCall.SDL_DestroyWindow
          ∉ (sc_screen_otg_init sampleBuild ⟨false, true, true, some (64, 64), true, false⟩
            (sampleSDL false true) (sampleScreen false false) (sampleParams true true)).calls := by
  refine ⟨rfl, rfl, rfl, ?_⟩
  simp [sc_screen_otg_init, samplePlatform, sampleParams, sampleScreen]

/-- C12: a focus-lost window event never calls a processor and leaves the
module state, so the pending chord key, as it was; with a mouse processor
attached, capture true and the grab call taking effect, capture is false after
it, and a second focus-lost event leaves capture false. -/
theorem C12_focus_lost_releases (b : Build) (screen : sc_screen_otg) (sdl : SDL) :
    processorCalls
        (sc_screen_otg_handle_event b screen sdl
          (.SDL_WINDOWEVENT SDL_WINDOWEVENT_FOCUS_LOST)).calls = 0
      ∧ (sc_screen_otg_handle_event b screen sdl
          (.SDL_WINDOWEVENT SDL_WINDOWEVENT_FOCUS_LOST)).screen = screen
      ∧ (screen.mouse = true → sc_screen_otg_get_mouse_capture sdl = true →
          sdl.relative_mode_ok = true →
          sc_screen_otg_get_mouse_capture
              (sc_screen_otg_handle_event b screen sdl
                (.SDL_WINDOWEVENT SDL_WINDOWEVENT_FOCUS_LOST)).sdl = false
            ∧ sc_screen_otg_get_mouse_capture
                (run b screen sdl
                  [.SDL_WINDOWEVENT SDL_WINDOWEVENT_FOCUS_LOST,
                    .SDL_WINDOWEVENT SDL_WINDOWEVENT_FOCUS_LOST]).sdl = false) := by
  have hstep : ∀ (s : sc_screen_otg) (p : SDL),
      sc_screen_otg_handle_event b s p (.SDL_WINDOWEVENT SDL_WINDOWEVENT_FOCUS_LOST)
        = if s.mouse = true then
            ⟨s, (sc_screen_otg_set_mouse_capture b p false).1,
              (sc_screen_otg_set_mouse_capture b p false).2⟩
          else ⟨s, p, []⟩ := by
    intro s p
    simp [sc_screen_otg_handle_event, SDL_WINDOWEVENT_FOCUS_LOST, SDL_WINDOWEVENT_EXPOSED]
  have hf := set_mouse_capture_filter b sdl false
  refine ⟨?_, ?_, ?_⟩
  · rw [hstep]
    split_ifs
    · simp [processorCalls, hf.2.1, hf.2.2]
    · rfl
  · rw [hstep]
    split_ifs <;> rfl
  · intro hm _ hok
    have h1 : (sc_screen_otg_set_mouse_capture b sdl false).1
        = { sdl with relative_mode := false } := set_mouse_capture_ok b sdl false hok
    have h2 : (sc_screen_otg_set_mouse_capture b { sdl with relative_mode := false } false).1
        = { sdl with relative_mode := false } := by
      rw [set_mouse_capture_ok b { sdl with relative_mode := false } false hok]
    simp only [run_cons, run_nil, hstep, hm, if_true, h1, h2]
    exact ⟨rfl, rfl⟩

/-- Witness of C12: mouse attached, capture engaged, a chord pending on
LeftAlt. -/
theorem C12_focus_lost_releases_witness :
    sc_screen_otg_get_mouse_capture
        (sc_screen_otg_handle_event sampleBuild ⟨true, true, true, SDLK_LALT⟩
          (sampleSDL true true) (.SDL_WINDOWEVENT SDL_WINDOWEVENT_FOCUS_LOST)).sdl = false
      ∧ sc_screen_otg_get_mouse_capture
          (run sampleBuild ⟨true, true, true, SDLK_LALT⟩ (sampleSDL true true)
            [.SDL_WINDOWEVENT SDL_WINDOWEVENT_FOCUS_LOST,
              .SDL_WINDOWEVENT SDL_WINDOWEVENT_FOCUS_LOST]).sdl = false :=
  (C12_focus_lost_releases sampleBuild ⟨true, true, true, SDLK_LALT⟩
    (sampleSDL true true)).2.2 rfl rfl rfl

/-- C13: with no mouse processor and a keyboard processor attached, every
key-down and every key-up, those of LeftAlt, LeftGUI and RightGUI included, is
forwarded as exactly one key event carrying the translated action, key code,
scan code and modifier mask and the repeat flag of the raw event, with the
sequence id `SC_SEQUENCE_INVALID`; nothing else is called or changed. -/
theorem C13_keys_forwarded_without_mouse (b : Build) (screen : sc_screen_otg) (sdl : SDL)
    (ev : SDL_KeyboardEvent) (hm : screen.mouse = false) (hk : screen.keyboard = true) :
    sc_screen_otg_handle_event b screen sdl (.SDL_KEYDOWN ev)
        = ⟨screen, sdl,
            [Call.process_key
              ⟨b.ie.sc_action_from_sdl_keyboard_type SDL_KEYDOWN,
                b.ie.sc_keycode_from_sdl ev.keysym.sym,
                b.ie.sc_scancode_from_sdl ev.keysym.scancode,
                decide (ev.is_repeat ≠ 0),
                b.ie.sc_mods_state_from_sdl ev.keysym.mod⟩ SC_SEQUENCE_INVALID]⟩
      ∧ sc_screen_otg_handle_event b screen sdl (.SDL_KEYUP ev)
        = ⟨screen, sdl,
            [Call.process_key
              ⟨b.ie.sc_action_from_sdl_keyboard_type SDL_KEYUP,
                b.ie.sc_keycode_from_sdl ev.keysym.sym,
                b.ie.sc_scancode_from_sdl ev.keysym.scancode,
                decide (ev.is_repeat ≠ 0),
                b.ie.sc_mods_state_from_sdl ev.keysym.mod⟩ SC_SEQUENCE_INVALID]⟩ := by
  constructor <;>
    simp only [sc_screen_otg_handle_event, sc_screen_otg_process_key, hm, hk,
      Bool.false_eq_true, if_false, if_true]

/-- Witness of C13: a repeated key-down and a key-up of LeftAlt, keyboard
only. -/
theorem C13_keys_forwarded_without_mouse_witness :
    sc_screen_otg_handle_event sampleBuild (sampleScreen true false) (sampleSDL false true)
        (.SDL_KEYDOWN ⟨⟨226, SDLK_LALT, 256⟩, 1⟩)
        = ⟨sampleScreen true false, sampleSDL false true,
            [Call.process_key
              ⟨sampleBuild.ie.sc_action_from_sdl_keyboard_type SDL_KEYDOWN,
                sampleBuild.ie.sc_keycode_from_sdl SDLK_LALT,
                sampleBuild.ie.sc_scancode_from_sdl 226,
                decide ((1 : Nat) ≠ 0),
                sampleBuild.ie.sc_mods_state_from_sdl 256⟩ SC_SEQUENCE_INVALID]⟩
      ∧ sc_screen_otg_handle_event sampleBuild (sampleScreen true false) (sampleSDL false true)
          (.SDL_KEYUP ⟨⟨226, SDLK_LALT, 256⟩, 1⟩)
        = ⟨sampleScreen true false, sampleSDL false true,
            [Call.process_key
              ⟨sampleBuild.ie.sc_action_from_sdl_keyboard_type SDL_KEYUP,
                sampleBuild.ie.sc_keycode_from_sdl SDLK_LALT,
                sampleBuild.ie.sc_scancode_from_sdl 226,
                decide ((1 : Nat) ≠ 0),
                sampleBuild.ie.sc_mods_state_from_sdl 256⟩ SC_SEQUENCE_INVALID]⟩ :=
  C13_keys_forwarded_without_mouse sampleBuild (sampleScreen true false) (sampleSDL false true)
    ⟨⟨226, SDLK_LALT, 256⟩, 1⟩ rfl rfl

/-- The calls of `sc_screen_otg_set_mouse_capture`: no processor call and one
operation on the window surface. -/
theorem set_mouse_capture_counts (b : Build) (sdl : SDL) (want : Bool) :
    processorCalls (sc_screen_otg_set_mouse_capture b sdl want).2 = 0
      ∧ surfaceOperations (sc_screen_otg_set_mouse_capture b sdl want).2 = 1 := by
  simp only [sc_screen_otg_set_mouse_capture, processorCalls, surfaceOperations]
  split_ifs <;> simp [List.filter, Call.isSetCapture, Call.isKeyboard, Call.isMouse]

/-- The calls of `sc_screen_otg_render`: no processor call and one operation
on the window surface. -/
theorem render_counts (screen : sc_screen_otg) :
    processorCalls (sc_screen_otg_render screen) = 0
      ∧ surfaceOperations (sc_screen_otg_render screen) = 1 := by
  simp only [sc_screen_otg_render, processorCalls, surfaceOperations]
  split_ifs <;> simp [List.filter, Call.isSetCapture, Call.isKeyboard, Call.isMouse]

/-- C14: for every module state, platform state and raw event, one call of
`sc_screen_otg_handle_event` makes at most one call into the keyboard and
mouse processors taken together, and at most one redraw or set-capture
operation on the window surface. -/
theorem C14_at_most_one_call (b : Build) (screen : sc_screen_otg) (sdl : SDL)
    (event : SDL_Event) :
    processorCalls (sc_screen_otg_handle_event b screen sdl event).calls ≤ 1
      ∧ surfaceOperations (sc_screen_otg_handle_event b screen sdl event).calls ≤ 1 := by
  have hset := fun want => set_mouse_capture_counts b sdl want
  have hrender := render_counts screen
  have hnil : processorCalls [] ≤ 1 ∧ surfaceOperations [] ≤ 1 := by
    simp [processorCalls, surfaceOperations]
  have hkey : ∀ (t : Nat) (ev : SDL_KeyboardEvent),
      processorCalls (sc_screen_otg_process_key b t ev) ≤ 1
        ∧ surfaceOperations (sc_screen_otg_process_key b t ev) ≤ 1 := by
    intro t ev
    simp [sc_screen_otg_process_key, processorCalls, surfaceOperations, List.filter,
      Call.isSetCapture, Call.isKeyboard, Call.isMouse]
  have hbutton : ∀ (t : Nat) (ev : SDL_MouseButtonEvent),
      processorCalls (sc_screen_otg_process_mouse_button b sdl t ev) ≤ 1
        ∧ surfaceOperations (sc_screen_otg_process_mouse_button b sdl t ev) ≤ 1 := by
    intro t ev
    simp [sc_screen_otg_process_mouse_button, processorCalls, surfaceOperations, List.filter,
      Call.isSetCapture, Call.isKeyboard, Call.isMouse]
  cases event with
  | SDL_WINDOWEVENT we =>
    simp only [sc_screen_otg_handle_event]
    split_ifs
    · rw [hrender.1, hrender.2]; omega
    · rw [(hset false).1, (hset false).2]; omega
    · exact hnil
    · exact hnil
  | SDL_KEYDOWN ev =>
    simp only [sc_screen_otg_handle_event]
    split_ifs <;> first | exact hnil | exact hkey _ ev
  | SDL_KEYUP ev =>
    simp only [sc_screen_otg_handle_event, sc_screen_otg_toggle_mouse_capture]
    split_ifs <;> first
      | exact hnil
      | exact hkey _ ev
      | (rw [(hset _).1, (hset _).2]; omega)
  | SDL_MOUSEMOTION ev =>
    simp only [sc_screen_otg_handle_event]
    split_ifs
    · simp [sc_screen_otg_process_mouse_motion, processorCalls, surfaceOperations, List.filter,
        Call.isSetCapture, Call.isKeyboard, Call.isMouse]
    · exact hnil
  | SDL_MOUSEBUTTONDOWN ev =>
    simp only [sc_screen_otg_handle_event]
    split_ifs <;> first | exact hnil | exact hbutton _ ev
  | SDL_MOUSEBUTTONUP ev =>
    simp only [sc_screen_otg_handle_event]
    split_ifs <;> first
      | exact hnil
      | exact hbutton _ ev
      | (rw [(hset true).1, (hset true).2]; omega)
  | SDL_MOUSEWHEEL ev =>
    simp only [sc_screen_otg_handle_event]
    split_ifs
    · simp [sc_screen_otg_process_mouse_wheel, processorCalls, surfaceOperations, List.filter,
        Call.isSetCapture, Call.isKeyboard, Call.isMouse]
    · exact hnil
  | other t => exact hnil

/-- After `sc_screen_otg_init`, whatever it returns, the module state holds
the two processors of the configuration and no pending chord key. -/
theorem init_screen (b : Build) (pf : InitPlatform) (sdl : SDL)
    (screen : sc_screen_otg) (params : sc_screen_otg_params) :
    (sc_screen_otg_init b pf sdl screen params).screen.mouse_capture_key_pressed = 0
      ∧ (sc_screen_otg_init b pf sdl screen params).screen.mouse = params.mouse
      ∧ (sc_screen_otg_init b pf sdl screen params).screen.keyboard = params.keyboard := by
  obtain ⟨win32, wok, rok, icon, lok, tok⟩ := pf
  cases wok <;> cases rok <;> cases icon <;> cases tok <;> cases hmouse : params.mouse <;>
    simp [sc_screen_otg_init, hmouse]

/-- C15: after a successful `sc_screen_otg_init` the pending chord key is
none; when `params->mouse` is set and the grab call takes effect the capture
state is true; when `params->mouse` is not set and the platform's grab mode
was off before, the capture state is false; this for every choice of the
other parameters. -/
theorem C15_state_after_init (b : Build) (pf : InitPlatform) (sdl : SDL)
    (screen : sc_screen_otg) (params : sc_screen_otg_params)
    (hinit : (sc_screen_otg_init b pf sdl screen params).ok = true) :
    (sc_screen_otg_init b pf sdl screen params).screen.mouse_capture_key_pressed = 0
      ∧ (params.mouse = true → sdl.relative_mode_ok = true →
          sc_screen_otg_get_mouse_capture (sc_screen_otg_init b pf sdl screen params).sdl = true)
      ∧ (params.mouse = false → sc_screen_otg_get_mouse_capture sdl = false →
          sc_screen_otg_get_mouse_capture (sc_screen_otg_init b pf sdl screen params).sdl
            = false) := by
  refine ⟨(init_screen b pf sdl screen params).1, ?_, ?_⟩
  · intro hm hok
    have hset := set_mouse_capture_ok b sdl true hok
    obtain ⟨win32, wok, rok, icon, lok, tok⟩ := pf
    cases wok <;> cases rok <;> cases icon <;> cases tok <;>
      simp_all [sc_screen_otg_init, sc_screen_otg_get_mouse_capture, SDL_GetRelativeMouseMode]
  · intro hm hc
    obtain ⟨win32, wok, rok, icon, lok, tok⟩ := pf
    cases wok <;> cases rok <;> cases icon <;> cases tok <;>
      simp_all [sc_screen_otg_init, sc_screen_otg_get_mouse_capture, SDL_GetRelativeMouseMode]

/-- Witness of C15: a successful initialization with a mouse processor, and
one without. -/
theorem C15_state_after_init_witness :
    ((sc_screen_otg_init sampleBuild samplePlatform (sampleSDL false true)
          ⟨false, false, false, SDLK_LGUI⟩ (sampleParams true true)).screen.mouse_capture_key_pressed
          = 0
        ∧ sc_screen_otg_get_mouse_capture
            (sc_screen_otg_init sampleBuild samplePlatform (sampleSDL false true)
              ⟨false, false, false, SDLK_LGUI⟩ (sampleParams true true)).sdl = true)
      ∧ sc_screen_otg_get_mouse_capture
          (sc_screen_otg_init sampleBuild samplePlatform (sampleSDL false true)
            ⟨false, false, false, SDLK_LGUI⟩ (sampleParams true false)).sdl = false :=
  ⟨⟨(C15_state_after_init sampleBuild samplePlatform (sampleSDL false true)
        ⟨false, false, false, SDLK_LGUI⟩ (sampleParams true true) rfl).1,
      (C15_state_after_init sampleBuild samplePlatform (sampleSDL false true)
        ⟨false, false, false, SDLK_LGUI⟩ (sampleParams true true) rfl).2.1 rfl rfl⟩,
    (C15_state_after_init sampleBuild samplePlatform (sampleSDL false true)
      ⟨false, false, false, SDLK_LGUI⟩ (sampleParams true false) rfl).2.2 rfl rfl⟩

theorem handle_keydown_other (b : Build) (screen : sc_screen_otg) (sdl : SDL)
    (ev : SDL_KeyboardEvent) (hm : screen.mouse = true)
    (hk : sc_screen_otg_is_mouse_capture_key ev.keysym.sym = false) :
    (sc_screen_otg_handle_event b screen sdl (.SDL_KEYDOWN ev)).screen = screen
      ∧ (sc_screen_otg_handle_event b screen sdl (.SDL_KEYDOWN ev)).sdl = sdl := by
  simp only [sc_screen_otg_handle_event, hm, hk, if_true, Bool.false_eq_true, if_false]
  split_ifs <;> exact ⟨rfl, rfl⟩

theorem handle_keyup_other (b : Build) (screen : sc_screen_otg) (sdl : SDL)
    (ev : SDL_KeyboardEvent) (hm : screen.mouse = true)
    (hk : sc_screen_otg_is_mouse_capture_key ev.keysym.sym = false) :
    (sc_screen_otg_handle_event b screen sdl (.SDL_KEYUP ev)).screen
        = { screen with mouse_capture_key_pressed := 0 }
      ∧ (sc_screen_otg_handle_event b screen sdl (.SDL_KEYUP ev)).sdl = sdl := by
  simp only [sc_screen_otg_handle_event, hm, hk, if_true, Bool.false_eq_true, if_false]
  split_ifs <;> exact ⟨rfl, rfl⟩

/-- C16, as stated with the mouse processor attached as its only condition,
fails: in the state reached by a successful initialization and a key-down of
LeftGUI, the sequence key-down(LeftAlt), key-down(a), key-up(LeftAlt) makes
no capture-mode call and leaves the capture state as it was, because the
key-down of LeftAlt cancelled the chord pending on LeftGUI. -/
theorem C16_counterexample :
    Reachable sampleBuild ⟨true, true, true, SDLK_LGUI⟩
      ∧ sc_screen_otg_get_mouse_capture
          (run sampleBuild ⟨true, true, true, SDLK_LGUI⟩ (sampleSDL true true)
            [.SDL_KEYDOWN (keyEvent SDLK_LALT), .SDL_KEYDOWN (keyEvent 97),
              .SDL_KEYUP (keyEvent SDLK_LALT)]).sdl
        ≠ !sc_screen_otg_get_mouse_capture (sampleSDL true true)
      ∧ (run sampleBuild ⟨true, true, true, SDLK_LGUI⟩ (sampleSDL true true)
          [.SDL_KEYDOWN (keyEvent SDLK_LALT), .SDL_KEYDOWN (keyEvent 97),
            .SDL_KEYUP (keyEvent SDLK_LALT)]).calls.filter Call.isSetCapture = [] := by
  refine ⟨?_, by decide, by decide⟩
  exact Reachable.step
    (sc_screen_otg_init sampleBuild samplePlatform (sampleSDL false true)
      (sampleScreen false false) (sampleParams true true)).screen
    (sampleSDL true true) (.SDL_KEYDOWN (keyEvent SDLK_LGUI))
    (Reachable.init samplePlatform (sampleSDL false true) (sampleScreen false false)
      (sampleParams true true) rfl)

/-- C16, amended: with a mouse processor attached, the key-up of a non-toggle
key clears the pending chord key, so key-down(k), key-up(a), key-up(k)
leaves the capture state unchanged; a key-down of a non-toggle key does not
clear the pending key: after key-down(k), key-down(a) the pending key is the
one key-down(k) left; and when no chord is pending at the start,
key-down(k), key-down(a) leaves k pending and, the grab call taking effect,
key-down(k), key-down(a), key-up(k) negates the capture state. -/
theorem C16_other_key_up_forfeits (b : Build) (screen : sc_screen_otg) (sdl : SDL)
    (d u a : SDL_KeyboardEvent) (hm : screen.mouse = true)
    (hk : sc_screen_otg_is_mouse_capture_key d.keysym.sym = true)
    (hsame : u.keysym.sym = d.keysym.sym)
    (ha : sc_screen_otg_is_mouse_capture_key a.keysym.sym = false) :
    (run b screen sdl [.SDL_KEYDOWN d, .SDL_KEYUP a]).screen.mouse_capture_key_pressed = 0
      ∧ sc_screen_otg_get_mouse_capture
          (run b screen sdl [.SDL_KEYDOWN d, .SDL_KEYUP a, .SDL_KEYUP u]).sdl
        = sc_screen_otg_get_mouse_capture sdl
      ∧ (run b screen sdl [.SDL_KEYDOWN d, .SDL_KEYDOWN a]).screen.mouse_capture_key_pressed
        = (run b screen sdl [.SDL_KEYDOWN d]).screen.mouse_capture_key_pressed
      ∧ (screen.mouse_capture_key_pressed = 0 →
          (run b screen sdl [.SDL_KEYDOWN d, .SDL_KEYDOWN a]).screen.mouse_capture_key_pressed
              = d.keysym.sym
            ∧ (sdl.relative_mode_ok = true →
                sc_screen_otg_get_mouse_capture
                    (run b screen sdl [.SDL_KEYDOWN d, .SDL_KEYDOWN a, .SDL_KEYUP u]).sdl
                  = !sc_screen_otg_get_mouse_capture sdl)) := by
  have hku : sc_screen_otg_is_mouse_capture_key u.keysym.sym = true := by rw [hsame]; exact hk
  have hd := handle_keydown_toggle b screen sdl d hm hk
  -- the state after key-down(k)
  generalize hs1 : ({ screen with mouse_capture_key_pressed :=
      if screen.mouse_capture_key_pressed = 0 then d.keysym.sym else 0 } : sc_screen_otg) = s1
    at hd
  have hm1 : s1.mouse = true := by rw [← hs1]; exact hm
  have hupa := handle_keyup_other b s1 sdl a hm1 ha
  have hdna := handle_keydown_other b s1 sdl a hm1 ha
  have hne : ¬ u.keysym.sym = (0 : Int) := capture_key_ne_zero hku
  have hupu : sc_screen_otg_handle_event b { s1 with mouse_capture_key_pressed := 0 } sdl
      (.SDL_KEYUP u) = ⟨{ s1 with mouse_capture_key_pressed := 0 }, sdl, []⟩ := by
    rw [handle_keyup_toggle b { s1 with mouse_capture_key_pressed := 0 } sdl u hm1 hku]
    exact if_neg hne
  refine ⟨?_, ?_, ?_, ?_⟩
  · simp only [run_cons, run_nil, hd, hupa.1]
  · simp only [run_cons, run_nil, hd, hupa.1, hupa.2, hupu]
  · simp only [run_cons, run_nil, hd, hdna.1]
  · intro hp
    have hp1 : s1.mouse_capture_key_pressed = d.keysym.sym := by
      rw [← hs1]; simp [hp]
    refine ⟨?_, ?_⟩
    · simp only [run_cons, run_nil, hd, hdna.1, hp1]
    · intro hok
      have hup : sc_screen_otg_handle_event b s1 sdl (.SDL_KEYUP u)
          = ⟨{ s1 with mouse_capture_key_pressed := 0 },
              (sc_screen_otg_toggle_mouse_capture b sdl).1,
              (sc_screen_otg_toggle_mouse_capture b sdl).2⟩ := by
        rw [handle_keyup_toggle b s1 sdl u hm1 hku, if_pos (by rw [hp1]; exact hsame)]
      simp only [run_cons, run_nil, hd, hdna.1, hdna.2, hup, sc_screen_otg_toggle_mouse_capture]
      rw [set_mouse_capture_ok b sdl _ hok]
      rfl

/-- Witness of C16: LeftAlt as the toggle key, the key `a` (code 97) as the
other key, capture engaged at the start. -/
theorem C16_other_key_up_forfeits_witness :
    (run sampleBuild (sampleScreen true true) (sampleSDL true true)
        [.SDL_KEYDOWN (keyEvent SDLK_LALT),
          .SDL_KEYUP (keyEvent 97)]).screen.mouse_capture_key_pressed = 0
      ∧ sc_screen_otg_get_mouse_capture
          (run sampleBuild (sampleScreen true true) (sampleSDL true true)
            [.SDL_KEYDOWN (keyEvent SDLK_LALT), .SDL_KEYUP (keyEvent 97),
              .SDL_KEYUP (keyEvent SDLK_LALT)]).sdl
        = sc_screen_otg_get_mouse_capture (sampleSDL true true)
      ∧ (run sampleBuild (sampleScreen true true) (sampleSDL true true)
          [.SDL_KEYDOWN (keyEvent SDLK_LALT),
            .SDL_KEYDOWN (keyEvent 97)]).screen.mouse_capture_key_pressed
          = (run sampleBuild (sampleScreen true true) (sampleSDL true true)
              [.SDL_KEYDOWN (keyEvent SDLK_LALT)]).screen.mouse_capture_key_pressed
      ∧ (run sampleBuild (sampleScreen true true) (sampleSDL true true)
          [.SDL_KEYDOWN (keyEvent SDLK_LALT),
            .SDL_KEYDOWN (keyEvent 97)]).screen.mouse_capture_key_pressed
          = (keyEvent SDLK_LALT).keysym.sym
      ∧ sc_screen_otg_get_mouse_capture
          (run sampleBuild (sampleScreen true true) (sampleSDL true true)
            [.SDL_KEYDOWN (keyEvent SDLK_LALT), .SDL_KEYDOWN (keyEvent 97),
              .SDL_KEYUP (keyEvent SDLK_LALT)]).sdl
        = !sc_screen_otg_get_mouse_capture (sampleSDL true true) :=
  ⟨(C16_other_key_up_forfeits sampleBuild (sampleScreen true true) (sampleSDL true true)
      (keyEvent SDLK_LALT) (keyEvent SDLK_LALT) (keyEvent 97) rfl (by decide) rfl
      (by decide)).1,
    (C16_other_key_up_forfeits sampleBuild (sampleScreen true true) (sampleSDL true true)
      (keyEvent SDLK_LALT) (keyEvent SDLK_LALT) (keyEvent 97) rfl (by decide) rfl
      (by decide)).2.1,
    (C16_other_key_up_forfeits sampleBuild (sampleScreen true true) (sampleSDL true true)
      (keyEvent SDLK_LALT) (keyEvent SDLK_LALT) (keyEvent 97) rfl (by decide) rfl
      (by decide)).2.2.1,
    ((C16_other_key_up_forfeits sampleBuild (sampleScreen true true) (sampleSDL true true)
      (keyEvent SDLK_LALT) (keyEvent SDLK_LALT) (keyEvent 97) rfl (by decide) rfl
      (by decide)).2.2.2 rfl).1,
    ((C16_other_key_up_forfeits sampleBuild (sampleScreen true true) (sampleSDL true true)
      (keyEvent SDLK_LALT) (keyEvent SDLK_LALT) (keyEvent 97) rfl (by decide) rfl
      (by decide)).2.2.2 rfl).2 rfl⟩

theorem capture_key_cases {k : SDL_Keycode}
    (h : sc_screen_otg_is_mouse_capture_key k = true) :
    k = SDLK_LALT ∨ k = SDLK_LGUI ∨ k = SDLK_RGUI := by
  simpa [sc_screen_otg_is_mouse_capture_key, or_assoc] using h

/-- One call of `sc_screen_otg_handle_event` keeps the two processors, and the
pending chord key it leaves is none, or the one it found, or a toggle key
recorded while a mouse processor is attached. -/
theorem handle_event_pending (b : Build) (screen : sc_screen_otg) (sdl : SDL)
    (event : SDL_Event) :
    (sc_screen_otg_handle_event b screen sdl event).screen.mouse = screen.mouse
      ∧ ((sc_screen_otg_handle_event b screen sdl event).screen.mouse_capture_key_pressed = 0
          ∨ (sc_screen_otg_handle_event b screen sdl event).screen.mouse_capture_key_pressed
              = screen.mouse_capture_key_pressed
          ∨ (screen.mouse = true
              ∧ sc_screen_otg_is_mouse_capture_key
                  (sc_screen_otg_handle_event b screen sdl
                    event).screen.mouse_capture_key_pressed = true)) := by
  cases event <;> simp only [sc_screen_otg_handle_event] <;> (try split_ifs) <;> simp_all

/-- C17: in every state reachable from a successful `sc_screen_otg_init` by
calls of `sc_screen_otg_handle_event`, the pending chord key is none (0) or
one of LeftAlt, LeftGUI, RightGUI, and it is none whenever no mouse processor
is attached. -/
theorem C17_pending_key_invariant (b : Build) (screen : sc_screen_otg)
    (h : Reachable b screen) :
    (screen.mouse_capture_key_pressed = 0 ∨ screen.mouse_capture_key_pressed = SDLK_LALT
        ∨ screen.mouse_capture_key_pressed = SDLK_LGUI
        ∨ screen.mouse_capture_key_pressed = SDLK_RGUI)
      ∧ (screen.mouse = false → screen.mouse_capture_key_pressed = 0) := by
  have hinv : screen.mouse_capture_key_pressed = 0
      ∨ (screen.mouse = true
          ∧ sc_screen_otg_is_mouse_capture_key screen.mouse_capture_key_pressed = true) := by
    induction h with
    | init pf sdl screen0 params _ =>
      exact Or.inl (init_screen b pf sdl screen0 params).1
    | step s sdl event _ ih =>
      obtain ⟨hmouse, hpend⟩ := handle_event_pending b s sdl event
      rcases hpend with h0 | hsame | ⟨hm, hk⟩
      · exact Or.inl h0
      · rcases ih with i0 | ⟨im, ik⟩
        · exact Or.inl (hsame.trans i0)
        · exact Or.inr ⟨hmouse.trans im, by rw [hsame]; exact ik⟩
      · exact Or.inr ⟨hmouse.trans hm, hk⟩
  constructor
  · rcases hinv with h0 | ⟨_, hk⟩
    · exact Or.inl h0
    · exact Or.inr (capture_key_cases hk)
  · intro hm
    rcases hinv with h0 | ⟨hm2, _⟩
    · exact h0
    · rw [hm] at hm2
      exact absurd hm2 (by decide)

/-- Witness of C17: the state after a successful initialization with a mouse
processor followed by a key-down of LeftGUI. -/
theorem C17_pending_key_invariant_witness :
    ((sc_screen_otg_handle_event sampleBuild
          (sc_screen_otg_init sampleBuild samplePlatform (sampleSDL false true)
            (sampleScreen false false) (sampleParams true true)).screen
          (sampleSDL true true)
          (.SDL_KEYDOWN (keyEvent SDLK_LGUI))).screen.mouse_capture_key_pressed = 0
        ∨ (sc_screen_otg_handle_event sampleBuild
          (sc_screen_otg_init sampleBuild samplePlatform (sampleSDL false true)
            (sampleScreen false false) (sampleParams true true)).screen
          (sampleSDL true true)
          (.SDL_KEYDOWN (keyEvent SDLK_LGUI))).screen.mouse_capture_key_pressed = SDLK_LALT
        ∨ (sc_screen_otg_handle_event sampleBuild
          (sc_screen_otg_init sampleBuild samplePlatform (sampleSDL false true)
            (sampleScreen false false) (sampleParams true true)).screen
          (sampleSDL true true)
          (.SDL_KEYDOWN (keyEvent SDLK_LGUI))).screen.mouse_capture_key_pressed = SDLK_LGUI
        ∨ (sc_screen_otg_handle_event sampleBuild
          (sc_screen_otg_init sampleBuild samplePlatform (sampleSDL false true)
            (sampleScreen false false) (sampleParams true true)).screen
          (sampleSDL true true)
          (.SDL_KEYDOWN (keyEvent SDLK_LGUI))).screen.mouse_capture_key_pressed = SDLK_RGUI)
      ∧ ((sc_screen_otg_handle_event sampleBuild
          (sc_screen_otg_init sampleBuild samplePlatform (sampleSDL false true)
            (sampleScreen false false) (sampleParams true true)).screen
          (sampleSDL true true)
          (.SDL_KEYDOWN (keyEvent SDLK_LGUI))).screen.mouse = false →
        (sc_screen_otg_handle_event sampleBuild
          (sc_screen_otg_init sampleBuild samplePlatform (sampleSDL false true)
            (sampleScreen false false) (sampleParams true true)).screen
          (sampleSDL true true)
          (.SDL_KEYDOWN (keyEvent SDLK_LGUI))).screen.mouse_capture_key_pressed = 0) :=
  C17_pending_key_invariant sampleBuild _
    (Reachable.step _ (sampleSDL true true) (.SDL_KEYDOWN (keyEvent SDLK_LGUI))
      (Reachable.init samplePlatform (sampleSDL false true) (sampleScreen false false)
        (sampleParams true true) rfl))

/-- C18: with no mouse processor attached, every raw event of every category
leaves the module state and the platform state, so the pending chord key and
the capture state, as they were, and makes no set-capture call and no call
into a mouse processor. -/
theorem C18_no_mouse_frame (b : Build) (screen : sc_screen_otg) (sdl : SDL)
    (event : SDL_Event) (hm : screen.mouse = false) :
    (sc_screen_otg_handle_event b screen sdl event).screen = screen
      ∧ (sc_screen_otg_handle_event b screen sdl event).sdl = sdl
      ∧ (sc_screen_otg_handle_event b screen sdl event).calls.filter Call.isSetCapture = []
      ∧ (sc_screen_otg_handle_event b screen sdl event).calls.filter Call.isMouse = [] := by
  cases event <;>
    simp only [sc_screen_otg_handle_event, hm, Bool.false_eq_true, if_false, Bool.false_and] <;>
    (try split_ifs) <;>
    simp [sc_screen_otg_render, sc_screen_otg_process_key, List.filter, Call.isSetCapture,
      Call.isMouse]

/-- Witness of C18: keyboard only, capture left engaged by the platform, a
key-up of LeftAlt. -/
theorem C18_no_mouse_frame_witness :
    (sc_screen_otg_handle_event sampleBuild (sampleScreen true false) (sampleSDL true true)
        (.SDL_KEYUP (keyEvent SDLK_LALT))).screen = sampleScreen true false
      ∧ (sc_screen_otg_handle_event sampleBuild (sampleScreen true false) (sampleSDL true true)
          (.SDL_KEYUP (keyEvent SDLK_LALT))).sdl = sampleSDL true true
      ∧ (sc_screen_otg_handle_event sampleBuild (sampleScreen true false) (sampleSDL true true)
          (.SDL_KEYUP (keyEvent SDLK_LALT))).calls.filter Call.isSetCapture = []
      ∧ (sc_screen_otg_handle_event sampleBuild (sampleScreen true false) (sampleSDL true true)
          (.SDL_KEYUP (keyEvent SDLK_LALT))).calls.filter Call.isMouse = [] :=
  C18_no_mouse_frame sampleBuild (sampleScreen true false) (sampleSDL true true)
    (.SDL_KEYUP (keyEvent SDLK_LALT)) rfl

/-- The pointer warps made by `sc_screen_otg_set_mouse_capture`. -/
theorem set_mouse_capture_warps (b : Build) (sdl : SDL) (capture : Bool) :
    (sc_screen_otg_set_mouse_capture b sdl capture).2.filter Call.isWarp
      = if b.apple = true ∧ capture = true
            ∧ ¬ (sdl.window_x ≤ sdl.global_mouse_x
                  ∧ sdl.global_mouse_x < sdl.window_x + sdl.window_w
                  ∧ sdl.window_y ≤ sdl.global_mouse_y
                  ∧ sdl.global_mouse_y < sdl.window_y + sdl.window_h) then
          [Call.SDL_WarpMouseInWindow (Int.tdiv sdl.window_w 2) (Int.tdiv sdl.window_h 2)]
        else [] := by
  have hb : (decide (sdl.global_mouse_x < sdl.window_x)
      || decide (sdl.global_mouse_x ≥ sdl.window_x + sdl.window_w)
      || decide (sdl.global_mouse_y < sdl.window_y)
      || decide (sdl.global_mouse_y ≥ sdl.window_y + sdl.window_h))
      = decide (¬ (sdl.window_x ≤ sdl.global_mouse_x
          ∧ sdl.global_mouse_x < sdl.window_x + sdl.window_w
          ∧ sdl.window_y ≤ sdl.global_mouse_y
          ∧ sdl.global_mouse_y < sdl.window_y + sdl.window_h)) := by
    by_cases hin : sdl.window_x ≤ sdl.global_mouse_x
        ∧ sdl.global_mouse_x < sdl.window_x + sdl.window_w
        ∧ sdl.window_y ≤ sdl.global_mouse_y
        ∧ sdl.global_mouse_y < sdl.window_y + sdl.window_h
    · rw [decide_eq_false (not_not.mpr hin)]
      simp only [Bool.or_eq_false_iff, decide_eq_false_iff_not]
      omega
    · rw [decide_eq_true hin]
      simp only [Bool.or_eq_true, decide_eq_true_eq]
      omega
  have hlog : ∀ (c : Prop) [Decidable c],
      (if c then [Call.LOGE_relative_mouse_mode capture] else []).filter Call.isWarp = [] := by
    intro c _
    split_ifs <;> rfl
  simp only [sc_screen_otg_set_mouse_capture, hb, List.filter_append, hlog]
  cases b.apple <;> cases capture <;>
    by_cases hin : sdl.window_x ≤ sdl.global_mouse_x
        ∧ sdl.global_mouse_x < sdl.window_x + sdl.window_w
        ∧ sdl.window_y ≤ sdl.global_mouse_y
        ∧ sdl.global_mouse_y < sdl.window_y + sdl.window_h <;>
    simp [hin, List.filter, Call.isWarp]

/-- C19: compiled with `__APPLE__`, and the sums `x + w` and `y + h` being
within the range of `int`, `sc_screen_otg_set_mouse_capture(screen, true)`
warps the pointer exactly when the global pointer position lies outside the
window rectangle [x, x+w) x [y, y+h), and the single warp then goes to the
window-relative point (w/2, h/2); that point satisfies 0 <= w/2 < w and
0 <= h/2 < h whenever w > 0 and h > 0; with capture false no warp is made. -/
theorem C19_warp_iff_outside (b : Build) (sdl : SDL) (hap : b.apple = true)
    (_hx : INT_MIN ≤ sdl.window_x + sdl.window_w ∧ sdl.window_x + sdl.window_w ≤ INT_MAX)
    (_hy : INT_MIN ≤ sdl.window_y + sdl.window_h ∧ sdl.window_y + sdl.window_h ≤ INT_MAX) :
    (¬ (sdl.window_x ≤ sdl.global_mouse_x ∧ sdl.global_mouse_x < sdl.window_x + sdl.window_w
          ∧ sdl.window_y ≤ sdl.global_mouse_y
          ∧ sdl.global_mouse_y < sdl.window_y + sdl.window_h) →
        (sc_screen_otg_set_mouse_capture b sdl true).2.filter Call.isWarp
          = [Call.SDL_WarpMouseInWindow (Int.tdiv sdl.window_w 2) (Int.tdiv sdl.window_h 2)])
      ∧ ((sdl.window_x ≤ sdl.global_mouse_x ∧ sdl.global_mouse_x < sdl.window_x + sdl.window_w
          ∧ sdl.window_y ≤ sdl.global_mouse_y
          ∧ sdl.global_mouse_y < sdl.window_y + sdl.window_h) →
        (sc_screen_otg_set_mouse_capture b sdl true).2.filter Call.isWarp = [])
      ∧ (0 < sdl.window_w → 0 < sdl.window_h →
          0 ≤ Int.tdiv sdl.window_w 2 ∧ Int.tdiv sdl.window_w 2 < sdl.window_w
            ∧ 0 ≤ Int.tdiv sdl.window_h 2 ∧ Int.tdiv sdl.window_h 2 < sdl.window_h)
      ∧ (sc_screen_otg_set_mouse_capture b sdl false).2.filter Call.isWarp = [] := by
  refine ⟨?_, ?_, ?_, ?_⟩
  · intro hout
    rw [set_mouse_capture_warps, if_pos ⟨hap, rfl, hout⟩]
  · intro hin
    rw [set_mouse_capture_warps, if_neg (fun h => h.2.2 hin)]
  · intro hw hh
    rw [Int.tdiv_eq_ediv (le_of_lt hw) (by decide), Int.tdiv_eq_ediv (le_of_lt hh) (by decide)]
    omega
  · rw [set_mouse_capture_warps, if_neg (fun h => absurd h.2.1 (by decide))]

/-- Witness of C19: an `__APPLE__` build, a 256x255 window at (100, 50), the
pointer once outside at (700, 20) and once inside at (355, 50). -/
theorem C19_warp_iff_outside_witness :
    (sc_screen_otg_set_mouse_capture ⟨true, sampleInputEvents⟩
        ⟨false, true, 0, 700, 20, 100, 50, 256, 255⟩ true).2.filter Call.isWarp
        = [Call.SDL_WarpMouseInWindow (Int.tdiv 256 2) (Int.tdiv 255 2)]
      ∧ (sc_screen_otg_set_mouse_capture ⟨true, sampleInputEvents⟩
          ⟨false, true, 0, 355, 50, 100, 50, 256, 255⟩ true).2.filter Call.isWarp = []
      ∧ ((0 : Int) ≤ Int.tdiv 256 2 ∧ Int.tdiv 256 2 < (256 : Int)
          ∧ (0 : Int) ≤ Int.tdiv 255 2 ∧ Int.tdiv 255 2 < (255 : Int))
      ∧ (sc_screen_otg_set_mouse_capture ⟨true, sampleInputEvents⟩
          ⟨false, true, 0, 700, 20, 100, 50, 256, 255⟩ false).2.filter Call.isWarp = [] :=
  ⟨(C19_warp_iff_outside ⟨true, sampleInputEvents⟩ ⟨false, true, 0, 700, 20, 100, 50, 256, 255⟩
      rfl (by decide) (by decide)).1 (by decide),
    (C19_warp_iff_outside ⟨true, sampleInputEvents⟩ ⟨false, true, 0, 355, 50, 100, 50, 256, 255⟩
      rfl (by decide) (by decide)).2.1 (by decide),
    (C19_warp_iff_outside ⟨true, sampleInputEvents⟩ ⟨false, true, 0, 700, 20, 100, 50, 256, 255⟩
      rfl (by decide) (by decide)).2.2.1 (by decide) (by decide),
    (C19_warp_iff_outside ⟨true, sampleInputEvents⟩ ⟨false, true, 0, 700, 20, 100, 50, 256, 255⟩
      rfl (by decide) (by decide)).2.2.2⟩

end ScreenOtg
